import Mathlib

set_option maxHeartbeats 1000000
set_option maxRecDepth 8192

/- Shallow embedding of the tftmc043 display driver (src/lib.rs and src/er5517.rs).

The driver talks to an ER-5517 display controller over SPI, framed by a
chip-select line.  The embedding makes the externally visible behaviour of the
Rust code explicit:

* `Env` is the environment: whether the n-th chip-select drive fails
  (`pinFail`), whether the n-th SPI bus operation fails (`spiFail`), and the
  bytes the device shifts out during the n-th SPI operation (`rx`, consumed
  mod 256 because the bus carries bytes).
* `St` is the observable state: the current chip-select level, the trace of
  bus events so far, counters of pin and SPI operations performed (indices
  into the environment), and the `color_mode` field of the `TFTMC043` handle.
* Every Rust method of `TFTMC043`/`ER5517` becomes a function of type
  `... → St → Except Err α × St`; `Err.pin`/`Err.spi` are the two variants of
  the Rust `Error` enum.  `Err.timeout` does not exist in the source: it
  totalises the source's unbounded busy-wait loops, which here take explicit
  fuel.  Blocking delays (`DelayMs`) do not touch the bus and are elided.

lib.rs and er5517.rs contain textually identical copies of the transport
layer (`with_select`, `write`, `read`, `cmd_write`, `data_write`,
`status_read`, `data_read`, `register_write`); it is embedded once below and
covers both files. -/

namespace Tftmc043

inductive ColorMode
  | EightBit
  | SixteenBit
  | TwentyFourBit
  deriving DecidableEq, Repr

/-- Bus-level events: chip-select transitions and SPI operations.  `wr` is a
blocking SPI write of the given bytes, `xfer` a full-duplex transfer sending
`tx` and receiving `rx`. -/
inductive Ev
  | csLow
  | csHigh
  | wr (bytes : List Nat)
  | xfer (tx rx : List Nat)
  deriving DecidableEq, Repr

/-- The two error variants of the Rust `Error<P, S>` enum, plus `timeout`,
which totalises the source's unbounded busy-wait loops (it is returned only
when the explicit fuel of a poll loop runs out, a case the source spins
through instead). -/
inductive Err
  | pin
  | spi
  | timeout
  deriving DecidableEq, Repr

/-- The environment of a run: which pin drives and SPI operations fail, and
what the device answers on full-duplex transfers. -/
structure Env where
  pinFail : Nat → Bool
  spiFail : Nat → Bool
  rx : Nat → Nat → Nat

/-- Observable driver state: chip-select level (`csLowLevel = true` means the
device is selected), the bus trace, operation counters, and the `color_mode`
field of the Rust `TFTMC043` struct (the `ER5517` struct has no such field;
operations embedded from er5517.rs simply never touch it). -/
structure St where
  csLowLevel : Bool
  trace : List Ev
  pinCnt : Nat
  spiCnt : Nat
  color_mode : ColorMode
  deriving DecidableEq, Repr

/-- Drive chip-select low (`cs.set_low()`).  On failure the level is
unchanged and the error is the pin variant. -/
def setLow (env : Env) (s : St) : Except Err Unit × St :=
  if env.pinFail s.pinCnt then
    (Except.error Err.pin, { s with pinCnt := s.pinCnt + 1 })
  else
    (Except.ok (),
      { s with csLowLevel := true, pinCnt := s.pinCnt + 1, trace := s.trace ++ [Ev.csLow] })

/-- Drive chip-select high (`cs.set_high()`). -/
def setHigh (env : Env) (s : St) : Except Err Unit × St :=
  if env.pinFail s.pinCnt then
    (Except.error Err.pin, { s with pinCnt := s.pinCnt + 1 })
  else
    (Except.ok (),
      { s with csLowLevel := false, pinCnt := s.pinCnt + 1, trace := s.trace ++ [Ev.csHigh] })

/-- The blocking SPI write `spi.write(bytes)`.  Its error type is the SPI
error, represented by `Unit` (payloads are irrelevant to the claims). -/
def spiWriteOp (env : Env) (bytes : List Nat) (s : St) : Except Unit Unit × St :=
  if env.spiFail s.spiCnt then
    (Except.error (), { s with spiCnt := s.spiCnt + 1 })
  else
    (Except.ok (), { s with spiCnt := s.spiCnt + 1, trace := s.trace ++ [Ev.wr bytes] })

/-- Received bytes of the n-th SPI transfer: one byte per transmitted byte
(full duplex preserves length). -/
def rxList (env : Env) (n : Nat) (tx : List Nat) : List Nat :=
  (List.range tx.length).map fun i => env.rx n i % 256

/-- The blocking full-duplex SPI exchange `spi.transfer(bytes)`. -/
def spiTransferOp (env : Env) (tx : List Nat) (s : St) : Except Unit (List Nat) × St :=
  if env.spiFail s.spiCnt then
    (Except.error (), { s with spiCnt := s.spiCnt + 1 })
  else
    (Except.ok (rxList env s.spiCnt tx),
      { s with spiCnt := s.spiCnt + 1, trace := s.trace ++ [Ev.xfer tx (rxList env s.spiCnt tx)] })

/-- `TFTMC043::with_select` (src/lib.rs:83, identical in src/er5517.rs:60):
drive chip-select low, run the closure against the bus, drive chip-select
high, and return the closure's result.  The closure's own result is a plain
value, so a failed bus operation still reaches the `set_high` step; a failed
pin drive propagates immediately. -/
def with_select {α : Type} (env : Env) (f : St → α × St) (s : St) : Except Err α × St :=
  match setLow env s with
  | (Except.error e, s₁) => (Except.error e, s₁)
  | (Except.ok _, s₁) =>
    match f s₁ with
    | (r, s₂) =>
      match setHigh env s₂ with
      | (Except.error e, s₃) => (Except.error e, s₃)
      | (Except.ok _, s₃) => (Except.ok r, s₃)

/-- `TFTMC043::write` (src/lib.rs:90): one chip-select-scoped bus write; a
bus failure inside the scope is surfaced as the SPI error variant after the
scope ends. -/
def write (env : Env) (bytes : List Nat) (s : St) : Except Err Unit × St :=
  match with_select env (spiWriteOp env bytes) s with
  | (Except.error e, s₁) => (Except.error e, s₁)
  | (Except.ok (Except.error _), s₁) => (Except.error Err.spi, s₁)
  | (Except.ok (Except.ok _), s₁) => (Except.ok (), s₁)

/-- `TFTMC043::read` (src/lib.rs:95): one chip-select-scoped full-duplex
exchange returning the received bytes. -/
def read (env : Env) (tx : List Nat) (s : St) : Except Err (List Nat) × St :=
  match with_select env (spiTransferOp env tx) s with
  | (Except.error e, s₁) => (Except.error e, s₁)
  | (Except.ok (Except.error _), s₁) => (Except.error Err.spi, s₁)
  | (Except.ok (Except.ok v), s₁) => (Except.ok v, s₁)

/-- Sequencing in the `Result`-with-state shape used throughout: run `m`,
and on success feed its value to `f` (the Rust `?` operator). -/
def bindE {α β : Type} (m : St → Except Err α × St) (f : α → St → Except Err β × St)
    (s : St) : Except Err β × St :=
  match m s with
  | (Except.error e, s₁) => (Except.error e, s₁)
  | (Except.ok a, s₁) => f a s₁

/-- `cmd_write` (src/lib.rs:100): frame `[0x00, cmd]`. -/
def cmd_write (env : Env) (cmd : Nat) : St → Except Err Unit × St :=
  write env [0, cmd]

/-- `data_write` (src/lib.rs:104): frame `[0x80, data]`. -/
def data_write (env : Env) (data : Nat) : St → Except Err Unit × St :=
  write env [128, data]

/-- `status_read` (src/lib.rs:116): exchange `[0x40, 0x00]` and return the
second received byte. -/
def status_read (env : Env) : St → Except Err Nat × St :=
  bindE (read env [64, 0]) fun v s => (Except.ok (v.getD 1 0), s)

/-- `data_read` (src/lib.rs:122): exchange `[0xC0, 0x00]` and return the
second received byte. -/
def data_read (env : Env) : St → Except Err Nat × St :=
  bindE (read env [192, 0]) fun v s => (Except.ok (v.getD 1 0), s)

/-- `register_write` (src/lib.rs:128): command-select frame then data frame. -/
def register_write (env : Env) (cmd data : Nat) : St → Except Err Unit × St :=
  bindE (cmd_write env cmd) fun _ => data_write env data

/-- The read-modify-write pattern shared by all bit-field operations of the
source: `cmd_write addr`, `v := data_read`, `data_write (f v)`. -/
def rmw (env : Env) (addr : Nat) (f : Nat → Nat) : St → Except Err Unit × St :=
  bindE (cmd_write env addr) fun _ => bindE (data_read env) fun v => data_write env (f v)

/-- Busy-poll `status_read` until the masked bits are all clear (the
`while status_read()? & mask != 0 {}` loops of the source), with fuel. -/
def pollClear (env : Env) (mask : Nat) : Nat → St → Except Err Unit × St
  | 0, s => (Except.error Err.timeout, s)
  | fuel + 1, s =>
    match status_read env s with
    | (Except.error e, s₁) => (Except.error e, s₁)
    | (Except.ok v, s₁) =>
      if v &&& mask ≠ 0 then pollClear env mask fuel s₁ else (Except.ok (), s₁)

/-- Busy-poll `status_read` until the masked bits are set (the
`while status_read()? & mask == 0 {}` loop of `sdram_check_ready`). -/
def pollSet (env : Env) (mask : Nat) : Nat → St → Except Err Unit × St
  | 0, s => (Except.error Err.timeout, s)
  | fuel + 1, s =>
    match status_read env s with
    | (Except.error e, s₁) => (Except.error e, s₁)
    | (Except.ok v, s₁) =>
      if v &&& mask = 0 then pollSet env mask fuel s₁ else (Except.ok (), s₁)

/-- `busy_draw` (src/lib.rs:299): poll until the draw-engine-busy bit 0x08
clears. -/
def busy_draw (env : Env) (fuel : Nat) : St → Except Err Unit × St :=
  pollClear env 8 fuel

/-- `check_mem_wr_fifo_ready` (src/lib.rs:306): poll until the
write-FIFO-full bit 0x80 clears. -/
def check_mem_wr_fifo_ready (env : Env) (fuel : Nat) : St → Except Err Unit × St :=
  pollClear env 128 fuel

/-- Successful-run state advance: chip-select ends high, `evs` got appended
to the trace, and `p` pin drives resp. `q` SPI operations were consumed. -/
def advance (s : St) (evs : List Ev) (p q : Nat) : St :=
  { s with csLowLevel := false, trace := s.trace ++ evs,
           pinCnt := s.pinCnt + p, spiCnt := s.spiCnt + q }

/-- Events of one chip-select-scoped command-select frame. -/
def cmdEvs (a : Nat) : List Ev := [Ev.csLow, Ev.wr [0, a], Ev.csHigh]

/-- Events of one chip-select-scoped data-write frame. -/
def dataEvs (v : Nat) : List Ev := [Ev.csLow, Ev.wr [128, v], Ev.csHigh]

/-- Events of one register write: its command frame then its data frame. -/
def rwEvs (a v : Nat) : List Ev := cmdEvs a ++ dataEvs v

/-- Events of one chip-select-scoped status-read exchange receiving bytes
`v₀`, `v₁`. -/
def statusEvs (v₀ v₁ : Nat) : List Ev := [Ev.csLow, Ev.xfer [64, 0] [v₀, v₁], Ev.csHigh]

/-- Events of one chip-select-scoped data-read exchange receiving bytes
`v₀`, `v₁`. -/
def dRdEvs (v₀ v₁ : Nat) : List Ev := [Ev.csLow, Ev.xfer [192, 0] [v₀, v₁], Ev.csHigh]

theorem advance_advance (s : St) (e₁ e₂ : List Ev) (p₁ q₁ p₂ q₂ : Nat) :
    advance (advance s e₁ p₁ q₁) e₂ p₂ q₂ = advance s (e₁ ++ e₂) (p₁ + p₂) (q₁ + q₂) := by
  simp [advance, Nat.add_assoc]

theorem bindE_of_ok {α β : Type} {m : St → Except Err α × St}
    {f : α → St → Except Err β × St} {s s₁ : St} {a : α}
    (h : m s = (Except.ok a, s₁)) : bindE m f s = f a s₁ := by
  simp [bindE, h]

theorem bindE_of_error {α β : Type} {m : St → Except Err α × St}
    {f : α → St → Except Err β × St} {s s₁ : St} {e : Err}
    (h : m s = (Except.error e, s₁)) : bindE m f s = (Except.error e, s₁) := by
  simp [bindE, h]

theorem write_ok (env : Env) (bs : List Nat) (s : St)
    (hpin : ∀ n, env.pinFail n = false) (hspi : ∀ n, env.spiFail n = false) :
    write env bs s = (Except.ok (), advance s [Ev.csLow, Ev.wr bs, Ev.csHigh] 2 1) := by
  simp [write, with_select, setLow, setHigh, spiWriteOp, hpin, hspi, advance]

theorem read_ok (env : Env) (tx : List Nat) (s : St)
    (hpin : ∀ n, env.pinFail n = false) (hspi : ∀ n, env.spiFail n = false) :
    read env tx s = (Except.ok (rxList env s.spiCnt tx),
      advance s [Ev.csLow, Ev.xfer tx (rxList env s.spiCnt tx), Ev.csHigh] 2 1) := by
  simp [read, with_select, setLow, setHigh, spiTransferOp, hpin, hspi, advance]

theorem cmd_write_ok (env : Env) (a : Nat) (s : St)
    (hpin : ∀ n, env.pinFail n = false) (hspi : ∀ n, env.spiFail n = false) :
    cmd_write env a s = (Except.ok (), advance s (cmdEvs a) 2 1) :=
  write_ok env [0, a] s hpin hspi

theorem data_write_ok (env : Env) (v : Nat) (s : St)
    (hpin : ∀ n, env.pinFail n = false) (hspi : ∀ n, env.spiFail n = false) :
    data_write env v s = (Except.ok (), advance s (dataEvs v) 2 1) :=
  write_ok env [128, v] s hpin hspi

theorem status_read_ok (env : Env) (s : St)
    (hpin : ∀ n, env.pinFail n = false) (hspi : ∀ n, env.spiFail n = false) :
    status_read env s = (Except.ok (env.rx s.spiCnt 1 % 256),
      advance s (statusEvs (env.rx s.spiCnt 0 % 256) (env.rx s.spiCnt 1 % 256)) 2 1) := by
  rw [status_read, bindE_of_ok (read_ok env [64, 0] s hpin hspi)]
  simp [rxList, statusEvs, List.range_succ]

theorem data_read_ok (env : Env) (s : St)
    (hpin : ∀ n, env.pinFail n = false) (hspi : ∀ n, env.spiFail n = false) :
    data_read env s = (Except.ok (env.rx s.spiCnt 1 % 256),
      advance s (dRdEvs (env.rx s.spiCnt 0 % 256) (env.rx s.spiCnt 1 % 256)) 2 1) := by
  rw [data_read, bindE_of_ok (read_ok env [192, 0] s hpin hspi)]
  simp [rxList, dRdEvs, List.range_succ]

theorem register_write_ok (env : Env) (a v : Nat) (s : St)
    (hpin : ∀ n, env.pinFail n = false) (hspi : ∀ n, env.spiFail n = false) :
    register_write env a v s = (Except.ok (), advance s (rwEvs a v) 4 2) := by
  rw [register_write, bindE_of_ok (cmd_write_ok env a s hpin hspi),
    data_write_ok env v _ hpin hspi, advance_advance]
  rfl

/-- Events of one read-modify-write of register `a` by `f`, started with SPI
counter at `n`: the data-read is the SPI operation of index `n + 1`. -/
def rmwEvsAt (env : Env) (n : Nat) (a : Nat) (f : Nat → Nat) : List Ev :=
  cmdEvs a ++ dRdEvs (env.rx (n + 1) 0 % 256) (env.rx (n + 1) 1 % 256) ++
    dataEvs (f (env.rx (n + 1) 1 % 256))

theorem rmw_ok (env : Env) (a : Nat) (f : Nat → Nat) (s : St)
    (hpin : ∀ n, env.pinFail n = false) (hspi : ∀ n, env.spiFail n = false) :
    rmw env a f s = (Except.ok (), advance s (rmwEvsAt env s.spiCnt a f) 6 3) := by
  rw [rmw, bindE_of_ok (cmd_write_ok env a s hpin hspi),
    bindE_of_ok (data_read_ok env _ hpin hspi),
    data_write_ok env _ _ hpin hspi, advance_advance, advance_advance]
  simp [advance, rmwEvsAt]

/-- All-success environment: no pin or bus failures, the device always
answers zero bytes. -/
def env0 : Env := ⟨fun _ => false, fun _ => false, fun _ _ => 0⟩

/-- Environment whose second pin drive (the chip-select restore of the first
scoped transaction) fails; the bus itself never fails. -/
def env1 : Env := ⟨fun n => n == 1, fun _ => false, fun _ _ => 0⟩

/-- Environment in which every SPI bus operation fails but the chip-select
drives succeed. -/
def env2 : Env := ⟨fun _ => false, fun _ => true, fun _ _ => 0⟩

/-- Initial state: deselected, empty trace, 16-bit recorded color mode (the
mode the 16-bit drawing adapter runs in). -/
def st0 : St := ⟨false, [], 0, 0, ColorMode.SixteenBit⟩

/-- Claim C1 (corrected): in `write`/`read`, chip-select goes low before the
bus operation and is restored high on every exit path on which the
chip-select drives themselves succeed.  In particular, whenever the SPI
operation fails and the SPI error is surfaced to the caller, chip-select has
already been driven high (a surfaced `Err.spi` implies the final level is
high and the scope events are exactly `csLow` then `csHigh`).  Only a pin
(control-line) fault can leave the device selected — that path is the
counterexample to the claim as stated. -/
theorem claim_C1 :
    (∀ (env : Env) (bs : List Nat) (s : St),
      (write env bs s).1 = Except.ok () →
      (write env bs s).2 = advance s [Ev.csLow, Ev.wr bs, Ev.csHigh] 2 1) ∧
    (∀ (env : Env) (bs : List Nat) (s : St),
      (write env bs s).1 = Except.error Err.spi →
      ((write env bs s).2).csLowLevel = false ∧
        ((write env bs s).2).trace = s.trace ++ [Ev.csLow, Ev.csHigh]) ∧
    (∀ (env : Env) (tx : List Nat) (s : St),
      (read env tx s).1 = Except.ok (rxList env s.spiCnt tx) →
      (read env tx s).2 = advance s [Ev.csLow, Ev.xfer tx (rxList env s.spiCnt tx), Ev.csHigh] 2 1) ∧
    (∀ (env : Env) (tx : List Nat) (s : St),
      (read env tx s).1 = Except.error Err.spi →
      ((read env tx s).2).csLowLevel = false ∧
        ((read env tx s).2).trace = s.trace ++ [Ev.csLow, Ev.csHigh]) := by
  refine ⟨?_, ?_, ?_, ?_⟩ <;> intro env bs s h <;>
    cases h₀ : env.pinFail s.pinCnt <;>
      cases h₁ : env.spiFail s.spiCnt <;>
        cases h₂ : env.pinFail (s.pinCnt + 1) <;>
          simp_all [write, read, with_select, setLow, setHigh, spiWriteOp, spiTransferOp, advance]

/-- Counterexample to claim C1 as stated: when the chip-select restore drive
itself faults after a successful bus write, `write` exits with the device
still selected (`csLowLevel = true`), so chip-select is not driven high on
every exit path. -/
theorem claim_C1_counterexample :
    (write env1 [0, 18] st0).1 = Except.error Err.pin ∧
      ((write env1 [0, 18] st0).2).csLowLevel = true := by
  constructor <;> rfl

/-- Witness for claim C1's theorem: with a bus that always fails, the
surfaced error of `write` is the SPI variant and chip-select ends high with
scope events `csLow, csHigh`. -/
theorem claim_C1_witness :
    ((write env2 [0, 18] st0).2).csLowLevel = false ∧
      ((write env2 [0, 18] st0).2).trace = [Ev.csLow, Ev.csHigh] := by
  have h := claim_C1.2.1 env2 [0, 18] st0 rfl
  exact ⟨h.1, by rw [h.2]; rfl⟩

/-- Claim C2 (confirmed): `register_write addr v` emits exactly the command
frame `[0x00, addr]` then the data frame `[0x80, v]`, each in its own
chip-select scope, with nothing in between (the resulting trace extension is
exactly `cmdEvs addr ++ dataEvs v`). -/
theorem claim_C2 (env : Env) (a v : Nat) (s : St)
    (hpin : ∀ n, env.pinFail n = false) (hspi : ∀ n, env.spiFail n = false) :
    register_write env a v s = (Except.ok (), advance s (cmdEvs a ++ dataEvs v) 4 2) :=
  register_write_ok env a v s hpin hspi

/-- Witness for claim C2 at a concrete register write. -/
theorem claim_C2_witness :
    register_write env0 18 7 st0 = (Except.ok (), advance st0 (cmdEvs 18 ++ dataEvs 7) 4 2) :=
  claim_C2 env0 18 7 st0 (fun _ => rfl) (fun _ => rfl)

/-- Wrapping 16-bit subtraction: the release-build semantics of the plain `-`
operator on Rust `u16` (debug builds panic on the same inputs; either way the
operation is not saturating). -/
def wsub16 (a b : Nat) : Nat := (a + 65536 - b) % 65536

/-- `set_horiz_non_display` (src/lib.rs:445), the horizontal back-porch
setter: registers 0x16 := `w / 8 - 1` (plain, wrapping subtraction) and
0x17 := `w % 8`. -/
def set_horiz_non_display (env : Env) (w : Nat) : St → Except Err Unit × St :=
  bindE (register_write env 22 (wsub16 (w / 8) 1 % 256)) fun _ =>
  register_write env 23 (w % 8)

/-- `set_horiz_start_pos` (src/lib.rs:451), the horizontal front-porch
setter: register 0x18 := `(w / 8).saturating_sub(1)`.  Saturating `u16`
subtraction coincides with truncated `Nat` subtraction. -/
def set_horiz_start_pos (env : Env) (w : Nat) : St → Except Err Unit × St :=
  register_write env 24 ((w / 8 - 1) % 256)

/-- `set_horiz_pulse_width` (src/lib.rs:456): register 0x19 :=
`(w / 8).saturating_sub(1)`. -/
def set_horiz_pulse_width (env : Env) (w : Nat) : St → Except Err Unit × St :=
  register_write env 25 ((w / 8 - 1) % 256)

/-- `set_vert_non_display` (src/lib.rs:461), the vertical back-porch setter:
`let v = v - 1` (plain, wrapping subtraction), registers 0x1C := low byte,
0x1D := high byte. -/
def set_vert_non_display (env : Env) (v : Nat) : St → Except Err Unit × St :=
  bindE (register_write env 28 (wsub16 v 1 % 256)) fun _ =>
  register_write env 29 ((wsub16 v 1 >>> 8) % 256)

/-- `set_vert_start_pos` (src/lib.rs:468): register 0x1E :=
`v.saturating_sub(1)`. -/
def set_vert_start_pos (env : Env) (v : Nat) : St → Except Err Unit × St :=
  register_write env 30 ((v - 1) % 256)

/-- `set_vert_pulse_width` (src/lib.rs:473): register 0x1F :=
`v.saturating_sub(1)`. -/
def set_vert_pulse_width (env : Env) (v : Nat) : St → Except Err Unit × St :=
  register_write env 31 ((v - 1) % 256)

/-- Claim C5 (corrected): the front-porch and sync-pulse-width setters do
use saturating-subtract-1 semantics (truncated `Nat` subtraction is exactly
`u16::saturating_sub` here) and never underflow; but the two back-porch
(non-display) setters use the plain wrapping subtraction `- 1`, which
underflows exactly when `w / 8 = 0` (horizontal, i.e. `w < 8`) resp.
`v = 0` (vertical).  For inputs `≥ 8` resp. `≥ 1` the wrapping form agrees
with the saturating one. -/
theorem claim_C5 :
    (∀ (env : Env) (w : Nat), (∀ n, env.pinFail n = false) → (∀ n, env.spiFail n = false) →
      ∀ s, set_horiz_start_pos env w s = (Except.ok (), advance s (rwEvs 24 ((w / 8 - 1) % 256)) 4 2)) ∧
    (∀ (env : Env) (w : Nat), (∀ n, env.pinFail n = false) → (∀ n, env.spiFail n = false) →
      ∀ s, set_horiz_pulse_width env w s = (Except.ok (), advance s (rwEvs 25 ((w / 8 - 1) % 256)) 4 2)) ∧
    (∀ (env : Env) (v : Nat), (∀ n, env.pinFail n = false) → (∀ n, env.spiFail n = false) →
      ∀ s, set_vert_start_pos env v s = (Except.ok (), advance s (rwEvs 30 ((v - 1) % 256)) 4 2)) ∧
    (∀ (env : Env) (v : Nat), (∀ n, env.pinFail n = false) → (∀ n, env.spiFail n = false) →
      ∀ s, set_vert_pulse_width env v s = (Except.ok (), advance s (rwEvs 31 ((v - 1) % 256)) 4 2)) ∧
    (∀ (env : Env) (w : Nat), (∀ n, env.pinFail n = false) → (∀ n, env.spiFail n = false) →
      ∀ s, set_horiz_non_display env w s =
        (Except.ok (), advance s (rwEvs 22 (wsub16 (w / 8) 1 % 256) ++ rwEvs 23 (w % 8)) 8 4)) ∧
    (∀ (env : Env) (v : Nat), (∀ n, env.pinFail n = false) → (∀ n, env.spiFail n = false) →
      ∀ s, set_vert_non_display env v s =
        (Except.ok (), advance s (rwEvs 28 (wsub16 v 1 % 256) ++ rwEvs 29 ((wsub16 v 1 >>> 8) % 256)) 8 4)) ∧
    (∀ w : Nat, 8 ≤ w → w < 65536 → wsub16 (w / 8) 1 = w / 8 - 1) ∧
    (∀ w : Nat, w < 8 → wsub16 (w / 8) 1 = 65535) ∧
    (∀ v : Nat, 1 ≤ v → v < 65536 → wsub16 v 1 = v - 1) ∧
    wsub16 0 1 = 65535 := by
  refine ⟨?_, ?_, ?_, ?_, ?_, ?_, ?_, ?_, ?_, by decide⟩
  · intro env w hpin hspi s; exact register_write_ok env 24 _ s hpin hspi
  · intro env w hpin hspi s; exact register_write_ok env 25 _ s hpin hspi
  · intro env v hpin hspi s; exact register_write_ok env 30 _ s hpin hspi
  · intro env v hpin hspi s; exact register_write_ok env 31 _ s hpin hspi
  · intro env w hpin hspi s
    rw [set_horiz_non_display, bindE_of_ok (register_write_ok env 22 _ s hpin hspi),
      register_write_ok env 23 _ _ hpin hspi, advance_advance]
  · intro env v hpin hspi s
    rw [set_vert_non_display, bindE_of_ok (register_write_ok env 28 _ s hpin hspi),
      register_write_ok env 29 _ _ hpin hspi, advance_advance]
  · intro w h₁ h₂; unfold wsub16; omega
  · intro w h; unfold wsub16; omega
  · intro v h₁ h₂; unfold wsub16; omega

/-- Counterexample to claim C5 as stated: at input 0 the horizontal
back-porch setter writes byte 255 (wrapped 0xFFFF) to register 0x16 and the
vertical back-porch setter writes bytes 255, 255 to registers 0x1C/0x1D,
whereas saturating-subtract-1 semantics would write 0 in each case. -/
theorem claim_C5_counterexample :
    ((set_horiz_non_display env0 0 st0).2).trace = rwEvs 22 255 ++ rwEvs 23 0 ∧
    ((set_vert_non_display env0 0 st0).2).trace = rwEvs 28 255 ++ rwEvs 29 255 ∧
    (0 / 8 - 1 : Nat) % 256 = 0 ∧ (0 - 1 : Nat) % 256 = 0 ∧ (255 : Nat) ≠ 0 := by
  refine ⟨rfl, rfl, rfl, rfl, by decide⟩

/-- Witness for claim C5's theorem: the front-porch setter at the driver's
own constant 160 writes `160 / 8 - 1 = 19`, and at input 0 writes 0 without
underflow. -/
theorem claim_C5_witness :
    set_horiz_start_pos env0 160 st0 = (Except.ok (), advance st0 (rwEvs 24 19) 4 2) ∧
    set_horiz_start_pos env0 0 st0 = (Except.ok (), advance st0 (rwEvs 24 0) 4 2) :=
  ⟨claim_C5.1 env0 160 (fun _ => rfl) (fun _ => rfl) st0,
   claim_C5.1 env0 0 (fun _ => rfl) (fun _ => rfl) st0⟩

/-- Bits of the 2-bit main-window color-format field of register 0x10
(src/lib.rs:155). -/
def modeWinBits : ColorMode → Nat
  | ColorMode.EightBit => 0
  | ColorMode.SixteenBit => 4
  | ColorMode.TwentyFourBit => 8

/-- Bits of the 2-bit memory color-format field of register 0x5E
(src/lib.rs:488). -/
def modeMemBits : ColorMode → Nat
  | ColorMode.EightBit => 0
  | ColorMode.SixteenBit => 1
  | ColorMode.TwentyFourBit => 2

/-- `select_main_window_color_mode` (src/lib.rs:152): read-modify-write of
register 0x10 clearing bits 0b1100 and setting the mode's bits. -/
def select_main_window_color_mode (env : Env) (m : ColorMode) : St → Except Err Unit × St :=
  rmw env 16 fun v => (v &&& (255 ^^^ 12)) ||| modeWinBits m

/-- `memory_color_mode` (src/lib.rs:485): read-modify-write of register
0x5E clearing bits 0b11 and setting the mode's bits. -/
def memory_color_mode (env : Env) (m : ColorMode) : St → Except Err Unit × St :=
  rmw env 94 fun v => (v &&& (255 ^^^ 3)) ||| modeMemBits m

/-- The method `on` of `TFTMC043` (src/lib.rs:143; `on` is a keyword here,
hence the name `display_on`): read-modify-write of register 0x12 setting or
clearing the display-on bit 0x40 and writing back all other bits unchanged. -/
def display_on (env : Env) (en : Bool) : St → Except Err Unit × St :=
  rmw env 18 fun v => if en then v ||| 64 else v &&& (255 ^^^ 64)

/-- `color_bars` (src/lib.rs:133): read-modify-write of register 0x12 on
the test-pattern bit 0x20. -/
def color_bars (env : Env) (en : Bool) : St → Except Err Unit × St :=
  rmw env 18 fun v => if en then v ||| 32 else v &&& (255 ^^^ 32)

theorem or64_preserves (w : Nat) (hw : w < 256) :
    ((w ||| 64) &&& (255 ^^^ 64) = w &&& (255 ^^^ 64)) ∧
      ((w &&& (255 ^^^ 64)) &&& (255 ^^^ 64) = w &&& (255 ^^^ 64)) := by
  revert hw
  revert w
  decide

/-- Claim C6 (corrected): `on` is a read-modify-write of register 0x12 that
changes only the display-on bit 0x40 — the written byte agrees with the byte
read on every other bit — and its whole bus trace never selects register
0x10, the register that actually holds the main-window color-format field.
Hence enabling or disabling the display cannot alter the configured
color-format bits, but not because the two share a register: they do not
(the claim's placement of the color-mode field is the corrected part). -/
theorem claim_C6 (env : Env) (en : Bool) (s : St)
    (hpin : ∀ n, env.pinFail n = false) (hspi : ∀ n, env.spiFail n = false) :
    display_on env en s = (Except.ok (),
      advance s (rmwEvsAt env s.spiCnt 18
        (fun v => if en then v ||| 64 else v &&& (255 ^^^ 64))) 6 3) ∧
    ((if en then env.rx (s.spiCnt + 1) 1 % 256 ||| 64
        else env.rx (s.spiCnt + 1) 1 % 256 &&& (255 ^^^ 64)) &&& (255 ^^^ 64)
      = env.rx (s.spiCnt + 1) 1 % 256 &&& (255 ^^^ 64)) ∧
    Ev.wr [0, 16] ∉ rmwEvsAt env s.spiCnt 18
      (fun v => if en then v ||| 64 else v &&& (255 ^^^ 64)) := by
  have hv : env.rx (s.spiCnt + 1) 1 % 256 < 256 := Nat.mod_lt _ (by norm_num)
  refine ⟨rmw_ok env 18 _ s hpin hspi, ?_, ?_⟩
  · cases en with
    | false => exact (or64_preserves _ hv).2
    | true => exact (or64_preserves _ hv).1
  · simp [rmwEvsAt, cmdEvs, dRdEvs, dataEvs]

/-- Counterexample to claim C6 as stated: the display-on bit is toggled via
command frame `[0x00, 0x12]` (register 0x12), while the main-window
color-format field is written via command frame `[0x00, 0x10]` (register
0x10) — they are not in the same register. -/
theorem claim_C6_counterexample :
    ((display_on env0 true st0).2).trace = cmdEvs 18 ++ dRdEvs 0 0 ++ dataEvs 64 ∧
    ((select_main_window_color_mode env0 ColorMode.SixteenBit st0).2).trace
      = cmdEvs 16 ++ dRdEvs 0 0 ++ dataEvs 4 ∧
    (18 : Nat) ≠ 16 := by
  refine ⟨rfl, rfl, by decide⟩

/-- Witness for claim C6's theorem at a concrete enable call. -/
theorem claim_C6_witness :
    display_on env0 true st0
      = (Except.ok (), advance st0 (cmdEvs 18 ++ dRdEvs 0 0 ++ dataEvs 64) 6 3) :=
  (claim_C6 env0 true st0 (fun _ => rfl) (fun _ => rfl)).1

/-- `set_color_mode` (src/lib.rs:213): if the requested mode differs from the
recorded one, update the memory color-format register, then the main-window
color-format register, then record the new mode; otherwise do nothing. -/
def set_color_mode (env : Env) (m : ColorMode) (s : St) : Except Err Unit × St :=
  if m ≠ s.color_mode then
    (bindE (memory_color_mode env m) fun _ =>
      bindE (select_main_window_color_mode env m) fun _ s₂ =>
        (Except.ok (), { s₂ with color_mode := m })) s
  else (Except.ok (), s)

theorem set_color_mode_ok_mode (env : Env) (m : ColorMode) (s s₁ : St)
    (h : set_color_mode env m s = (Except.ok (), s₁)) : s₁.color_mode = m := by
  unfold set_color_mode at h
  by_cases hm : m = s.color_mode
  · rw [if_neg (by simp [hm])] at h
    cases h
    exact hm.symm
  · rw [if_pos hm] at h
    rcases h₁ : memory_color_mode env m s with ⟨r₁, t₁⟩
    cases r₁ with
    | error e =>
      rw [bindE_of_error h₁] at h
      simp at h
    | ok a =>
      rw [bindE_of_ok h₁] at h
      rcases h₂ : select_main_window_color_mode env m t₁ with ⟨r₂, t₂⟩
      cases r₂ with
      | error e =>
        rw [bindE_of_error h₂] at h
        simp at h
      | ok b =>
        rw [bindE_of_ok h₂] at h
        cases h
        rfl

/-- Claim C7 (confirmed): `set_color_mode m` is a pure no-op (success, no
bus traffic, unchanged state) whenever `m` is already the recorded mode; any
successful call records `m`, so a second call with the same `m` is exactly
that no-op; and only a call with a differing mode writes, emitting the
memory color-format read-modify-write (register 0x5E) followed by the
main-window color-format read-modify-write (register 0x10). -/
theorem claim_C7 :
    (∀ (env : Env) (m : ColorMode) (s : St), m = s.color_mode →
      set_color_mode env m s = (Except.ok (), s)) ∧
    (∀ (env₁ env₂ : Env) (m : ColorMode) (s s₁ : St),
      set_color_mode env₁ m s = (Except.ok (), s₁) →
      set_color_mode env₂ m s₁ = (Except.ok (), s₁)) ∧
    (∀ (env : Env) (m : ColorMode) (s : St),
      (∀ n, env.pinFail n = false) → (∀ n, env.spiFail n = false) → m ≠ s.color_mode →
      set_color_mode env m s = (Except.ok (),
        { advance s
            (rmwEvsAt env s.spiCnt 94 (fun v => (v &&& (255 ^^^ 3)) ||| modeMemBits m) ++
              rmwEvsAt env (s.spiCnt + 3) 16 (fun v => (v &&& (255 ^^^ 12)) ||| modeWinBits m))
            12 6
          with color_mode := m })) := by
  have h₀ : ∀ (env : Env) (m : ColorMode) (s : St), m = s.color_mode →
      set_color_mode env m s = (Except.ok (), s) := by
    intro env m s hm
    rw [set_color_mode, if_neg (by simp [hm])]
  refine ⟨h₀, ?_, ?_⟩
  · intro env₁ env₂ m s s₁ h
    exact h₀ env₂ m s₁ (set_color_mode_ok_mode env₁ m s s₁ h).symm
  · intro env m s hpin hspi hm
    rw [set_color_mode, if_pos hm, memory_color_mode, select_main_window_color_mode,
      bindE_of_ok (rmw_ok env 94 _ s hpin hspi),
      bindE_of_ok (rmw_ok env 16 _ _ hpin hspi), advance_advance]
    rfl

/-- Witness for claim C7: a successful mode change to 24-bit followed by a
repeat call with the same mode — the repeat returns success with the state
(and hence the trace) unchanged. -/
theorem claim_C7_witness :
    set_color_mode env0 ColorMode.TwentyFourBit
        ((set_color_mode env0 ColorMode.TwentyFourBit st0).2)
      = (Except.ok (), (set_color_mode env0 ColorMode.TwentyFourBit st0).2) := by
  have h : set_color_mode env0 ColorMode.TwentyFourBit st0
      = (Except.ok (), (set_color_mode env0 ColorMode.TwentyFourBit st0).2) := rfl
  exact claim_C7.2.1 env0 env0 ColorMode.TwentyFourBit st0 _ h

/-- `color_mode` (src/er5517.rs:26): per-mode channel clamping and packing
used by the er5517 foreground/background color setters.  `clamp(0, hi)` on a
`u8` channel is `min · hi`; the argument bytes are `u8`, embedded as their
values mod 256. -/
def color_mode (m : ColorMode) (r g b : Nat) : Nat × Nat × Nat :=
  match m with
  | ColorMode.EightBit =>
    (min (r % 256) 7 <<< 5, min (g % 256) 7 <<< 5, min (b % 256) 3 <<< 6)
  | ColorMode.SixteenBit =>
    (min (r % 256) 31 <<< 3, min (g % 256) 63 <<< 2, min (b % 256) 31 <<< 3)
  | ColorMode.TwentyFourBit => (r % 256, g % 256, b % 256)

/-- `ER5517::fg_color` (src/er5517.rs:186): clamp and pack the channels for
the given mode, then write them to registers 0xD2, 0xD3, 0xD4. -/
def er_fg_color (env : Env) (m : ColorMode) (r g b : Nat) : St → Except Err Unit × St :=
  bindE (register_write env 210 (color_mode m r g b).1) fun _ =>
  bindE (register_write env 211 (color_mode m r g b).2.1) fun _ =>
  register_write env 212 (color_mode m r g b).2.2

/-- `ER5517::bg_color` (src/er5517.rs:196): same clamping, registers
0xD5–0xD7. -/
def er_bg_color (env : Env) (m : ColorMode) (r g b : Nat) : St → Except Err Unit × St :=
  bindE (register_write env 213 (color_mode m r g b).1) fun _ =>
  bindE (register_write env 214 (color_mode m r g b).2.1) fun _ =>
  register_write env 215 (color_mode m r g b).2.2

/-- Claim C8 (confirmed): the channel clamping of `color_mode` leaves
in-range values unchanged (then shifts them into the high bits of the byte:
red/blue by 3 and green by 2 in 16-bit mode, red/green by 5 and blue by 6 in
8-bit mode), saturates out-of-range values to the maximum representable in
the target bit width, passes 24-bit channels through untouched, and is what
`fg_color` writes to the foreground-color registers 0xD2–0xD4. -/
theorem claim_C8 :
    (∀ r g b : Nat, r < 32 → g < 64 → b < 32 →
      color_mode ColorMode.SixteenBit r g b = (r <<< 3, g <<< 2, b <<< 3)) ∧
    (∀ r g b : Nat, r < 256 → g < 256 → b < 256 → 32 ≤ r → 64 ≤ g → 32 ≤ b →
      color_mode ColorMode.SixteenBit r g b = (31 <<< 3, 63 <<< 2, 31 <<< 3)) ∧
    (∀ r g b : Nat, r < 8 → g < 8 → b < 4 →
      color_mode ColorMode.EightBit r g b = (r <<< 5, g <<< 5, b <<< 6)) ∧
    (∀ r g b : Nat, r < 256 → g < 256 → b < 256 → 8 ≤ r → 8 ≤ g → 4 ≤ b →
      color_mode ColorMode.EightBit r g b = (7 <<< 5, 7 <<< 5, 3 <<< 6)) ∧
    (∀ r g b : Nat, r < 256 → g < 256 → b < 256 →
      color_mode ColorMode.TwentyFourBit r g b = (r, g, b)) ∧
    (∀ (env : Env) (m : ColorMode) (r g b : Nat) (s : St),
      (∀ n, env.pinFail n = false) → (∀ n, env.spiFail n = false) →
      er_fg_color env m r g b s = (Except.ok (),
        advance s (rwEvs 210 (color_mode m r g b).1 ++ rwEvs 211 (color_mode m r g b).2.1 ++
          rwEvs 212 (color_mode m r g b).2.2) 12 6)) := by
  refine ⟨?_, ?_, ?_, ?_, ?_, ?_⟩
  · intro r g b hr hg hb
    simp [color_mode, Nat.mod_eq_of_lt (show r < 256 by omega),
      Nat.mod_eq_of_lt (show g < 256 by omega), Nat.mod_eq_of_lt (show b < 256 by omega),
      Nat.min_eq_left (show r ≤ 31 by omega), Nat.min_eq_left (show g ≤ 63 by omega),
      Nat.min_eq_left (show b ≤ 31 by omega)]
  · intro r g b hr hg hb hr' hg' hb'
    simp [color_mode, Nat.mod_eq_of_lt hr, Nat.mod_eq_of_lt hg, Nat.mod_eq_of_lt hb,
      Nat.min_eq_right (show 31 ≤ r by omega), Nat.min_eq_right (show 63 ≤ g by omega),
      Nat.min_eq_right (show 31 ≤ b by omega)]
  · intro r g b hr hg hb
    simp [color_mode, Nat.mod_eq_of_lt (show r < 256 by omega),
      Nat.mod_eq_of_lt (show g < 256 by omega), Nat.mod_eq_of_lt (show b < 256 by omega),
      Nat.min_eq_left (show r ≤ 7 by omega), Nat.min_eq_left (show g ≤ 7 by omega),
      Nat.min_eq_left (show b ≤ 3 by omega)]
  · intro r g b hr hg hb hr' hg' hb'
    simp [color_mode, Nat.mod_eq_of_lt hr, Nat.mod_eq_of_lt hg, Nat.mod_eq_of_lt hb,
      Nat.min_eq_right (show 7 ≤ r by omega), Nat.min_eq_right (show 7 ≤ g by omega),
      Nat.min_eq_right (show 3 ≤ b by omega)]
  · intro r g b hr hg hb
    simp [color_mode, Nat.mod_eq_of_lt hr, Nat.mod_eq_of_lt hg, Nat.mod_eq_of_lt hb]
  · intro env m r g b s hpin hspi
    rw [er_fg_color, bindE_of_ok (register_write_ok env 210 _ s hpin hspi),
      bindE_of_ok (register_write_ok env 211 _ _ hpin hspi),
      register_write_ok env 212 _ _ hpin hspi, advance_advance, advance_advance]
    rfl

/-- Witness for claim C8: an in-range 16-bit color passes through the clamp
unchanged (only shifted), an out-of-range one saturates, and `fg_color`
emits exactly the three clamped register writes. -/
theorem claim_C8_witness :
    color_mode ColorMode.SixteenBit 10 20 30 = (80, 80, 240) ∧
    color_mode ColorMode.SixteenBit 200 200 200 = (248, 252, 248) ∧
    er_fg_color env0 ColorMode.SixteenBit 200 200 200 st0 = (Except.ok (),
      advance st0 (rwEvs 210 248 ++ rwEvs 211 252 ++ rwEvs 212 248) 12 6) := by
  refine ⟨?_, ?_, ?_⟩
  · exact claim_C8.1 10 20 30 (by decide) (by decide) (by decide)
  · exact claim_C8.2.1 200 200 200 (by decide) (by decide) (by decide)
      (by decide) (by decide) (by decide)
  · exact claim_C8.2.2.2.2.2 env0 ColorMode.SixteenBit 200 200 200 st0
      (fun _ => rfl) (fun _ => rfl)

/-- `fg_color` (src/lib.rs:227): write the channel bytes to the
foreground-color registers 0xD2–0xD4 (the lib.rs variant performs no
clamping — "XXX expects 8-bit colors"). -/
def fg_color (env : Env) (r g b : Nat) : St → Except Err Unit × St :=
  bindE (register_write env 210 r) fun _ =>
  bindE (register_write env 211 g) fun _ =>
  register_write env 212 b

/-- `line_start` (src/lib.rs:254): registers 0x68/0x69 := x low/high byte,
0x6A/0x6B := y low/high byte. -/
def line_start (env : Env) (x y : Nat) : St → Except Err Unit × St :=
  bindE (register_write env 104 (x % 256)) fun _ =>
  bindE (register_write env 105 ((x >>> 8) % 256)) fun _ =>
  bindE (register_write env 106 (y % 256)) fun _ =>
  register_write env 107 ((y >>> 8) % 256)

/-- `line_end` (src/lib.rs:261): registers 0x6C–0x6F. -/
def line_end (env : Env) (x y : Nat) : St → Except Err Unit × St :=
  bindE (register_write env 108 (x % 256)) fun _ =>
  bindE (register_write env 109 ((x >>> 8) % 256)) fun _ =>
  bindE (register_write env 110 (y % 256)) fun _ =>
  register_write env 111 ((y >>> 8) % 256)

/-- `rect_fill` (src/lib.rs:268): write the fill command 0xE0 to the draw
command register 0x76, then `busy_draw`. -/
def rect_fill (env : Env) (fuel : Nat) : St → Except Err Unit × St :=
  bindE (register_write env 118 224) fun _ => busy_draw env fuel

/-- `goto_pixel` (src/lib.rs:578): write the pixel cursor registers
0x5F/0x60 := x low/high, 0x61/0x62 := y low/high. -/
def goto_pixel (env : Env) (x y : Nat) : St → Except Err Unit × St :=
  bindE (register_write env 95 (x % 256)) fun _ =>
  bindE (register_write env 96 ((x >>> 8) % 256)) fun _ =>
  bindE (register_write env 97 (y % 256)) fun _ =>
  register_write env 98 ((y >>> 8) % 256)

/-- An `embedded_graphics` `Rectangle`: `top_left : Point` (i32 pair) and
`size : Size` (u32 pair). -/
structure Rect where
  x : Int
  y : Int
  w : Nat
  h : Nat
  deriving DecidableEq, Repr

/-- The `i32 as u16` cast: two's-complement truncation mod 2^16. -/
def u16ofInt (x : Int) : Nat := (x % 65536).toNat

/-- The panel bounding box of the drawing adapters:
`Rectangle::new(Point::zero(), Size::new(WIDTH, HEIGHT))` with
`WIDTH = 480`, `HEIGHT = 272` (src/lib.rs:26). -/
def screenRect : Rect := ⟨0, 0, 480, 272⟩

/-- `Rectangle::intersection` of the embedded-graphics-core dependency
(external to this repository): if either rectangle is zero-sized or the
corner ranges do not overlap, a zero-sized rectangle results; otherwise the
rectangle spanning the componentwise max of the top-left corners and the
componentwise min of the bottom-right corners (`top_left + size - 1`). -/
def interRect (a b : Rect) : Rect :=
  if a.w = 0 ∨ a.h = 0 ∨ b.w = 0 ∨ b.h = 0 then ⟨a.x, a.y, 0, 0⟩
  else
    let tlx := max a.x b.x
    let tly := max a.y b.y
    let brx := min (a.x + a.w - 1) (b.x + b.w - 1)
    let bry := min (a.y + a.h - 1) (b.y + b.h - 1)
    if tlx ≤ brx ∧ tly ≤ bry then
      ⟨tlx, tly, (brx - tlx + 1).toNat, (bry - tly + 1).toNat⟩
    else ⟨a.x, a.y, 0, 0⟩

/-- An `Rgb565` color as stored by embedded-graphics: raw channel values
(5-bit red, 6-bit green, 5-bit blue); `r()`, `g()`, `b()` return them
unscaled. -/
structure Rgb565 where
  r : Nat
  g : Nat
  b : Nat
  deriving DecidableEq, Repr

/-- An `Rgb888` color: three 8-bit channels. -/
structure Rgb888 where
  r : Nat
  g : Nat
  b : Nat
  deriving DecidableEq, Repr

/-- The two data bytes of a 16-bit pixel write (src/lib.rs:650):
`b | (g << 5)` then `(g >> 3) | (r << 3)`, all in wrapping `u8`
arithmetic. -/
def px16bytes (c : Rgb565) : List Nat :=
  [(c.b % 256) ||| (((c.g % 256) <<< 5) % 256),
   ((c.g % 256) >>> 3) ||| (((c.r % 256) <<< 3) % 256)]

/-- The three data bytes of a 24-bit pixel write (src/lib.rs:694):
blue, green, red. -/
def px24bytes (c : Rgb888) : List Nat := [c.b % 256, c.g % 256, c.r % 256]

/-- The per-byte loop body shared by both `draw_iter` implementations:
`data_write(v)` then `check_mem_wr_fifo_ready()` for each byte. -/
def writePixelBytes (env : Env) (fuel : Nat) : List Nat → St → Except Err Unit × St
  | [], s => (Except.ok (), s)
  | v :: vs, s =>
    (bindE (data_write env v) fun _ =>
      bindE (check_mem_wr_fifo_ready env fuel) fun _ =>
      writePixelBytes env fuel vs) s

/-- One loop iteration of `TFTMC043Draw16Bit::draw_iter` (src/lib.rs:641):
the `i32` coordinates pass the guard iff they convert to `u32`
(non-negative) and match the inclusive range patterns `0..=WIDTH`,
`0..=HEIGHT`; then cursor write, pixel-write command 0x04, and the two data
bytes each followed by the FIFO wait. -/
def drawPixel16 (env : Env) (fuel : Nat) (x y : Int) (c : Rgb565) (s : St) :
    Except Err Unit × St :=
  if 0 ≤ x ∧ x ≤ 480 ∧ 0 ≤ y ∧ y ≤ 272 then
    (bindE (goto_pixel env x.toNat y.toNat) fun _ =>
      bindE (cmd_write env 4) fun _ =>
      writePixelBytes env fuel (px16bytes c)) s
  else (Except.ok (), s)

/-- One loop iteration of `TFTMC043Draw24Bit::draw_iter` (src/lib.rs:689). -/
def drawPixel24 (env : Env) (fuel : Nat) (x y : Int) (c : Rgb888) (s : St) :
    Except Err Unit × St :=
  if 0 ≤ x ∧ x ≤ 480 ∧ 0 ≤ y ∧ y ≤ 272 then
    (bindE (goto_pixel env x.toNat y.toNat) fun _ =>
      bindE (cmd_write env 4) fun _ =>
      writePixelBytes env fuel (px24bytes c)) s
  else (Except.ok (), s)

/-- `TFTMC043Draw16Bit::draw_iter` (src/lib.rs:637) over a pixel list. -/
def draw_iter16 (env : Env) (fuel : Nat) :
    List ((Int × Int) × Rgb565) → St → Except Err Unit × St
  | [], s => (Except.ok (), s)
  | p :: ps, s =>
    match drawPixel16 env fuel p.1.1 p.1.2 p.2 s with
    | (Except.error e, s₁) => (Except.error e, s₁)
    | (Except.ok _, s₁) => draw_iter16 env fuel ps s₁

/-- `TFTMC043Draw24Bit::draw_iter` (src/lib.rs:685) over a pixel list. -/
def draw_iter24 (env : Env) (fuel : Nat) :
    List ((Int × Int) × Rgb888) → St → Except Err Unit × St
  | [], s => (Except.ok (), s)
  | p :: ps, s =>
    match drawPixel24 env fuel p.1.1 p.1.2 p.2 s with
    | (Except.error e, s₁) => (Except.error e, s₁)
    | (Except.ok _, s₁) => draw_iter24 env fuel ps s₁

/-- `TFTMC043Draw16Bit::fill_solid` (src/lib.rs:660): intersect with the
panel bounding box; on a non-degenerate intersection set the foreground
color (channels shifted into `u8` high bits), write the corner registers,
and issue the hardware fill. -/
def fill_solid16 (env : Env) (fuel : Nat) (area : Rect) (c : Rgb565) (s : St) :
    Except Err Unit × St :=
  let d := interRect area screenRect
  if d.w = 0 ∧ d.h = 0 then (Except.ok (), s)
  else
    (bindE (fg_color env (((c.r % 256) <<< 3) % 256) (((c.g % 256) <<< 2) % 256)
        (((c.b % 256) <<< 3) % 256)) fun _ =>
      bindE (line_start env (u16ofInt d.x) (u16ofInt d.y)) fun _ =>
      bindE (line_end env (u16ofInt (d.x + d.w - 1)) (u16ofInt (d.y + d.h - 1))) fun _ =>
      rect_fill env fuel) s

/-- `TFTMC043Draw24Bit::fill_solid` (src/lib.rs:704): as above but with the
raw 8-bit channels. -/
def fill_solid24 (env : Env) (fuel : Nat) (area : Rect) (c : Rgb888) (s : St) :
    Except Err Unit × St :=
  let d := interRect area screenRect
  if d.w = 0 ∧ d.h = 0 then (Except.ok (), s)
  else
    (bindE (fg_color env (c.r % 256) (c.g % 256) (c.b % 256)) fun _ =>
      bindE (line_start env (u16ofInt d.x) (u16ofInt d.y)) fun _ =>
      bindE (line_end env (u16ofInt (d.x + d.w - 1)) (u16ofInt (d.y + d.h - 1))) fun _ =>
      rect_fill env fuel) s

/-- Shape of a completed busy-wait on `status_read`: one or more
chip-select-scoped status exchanges, every status byte before the last one
having the polled bit set, the last one having it clear. -/
inductive PollTail (mask : Nat) : List Ev → Prop
  | last (v₀ v₁ : Nat) : v₁ &&& mask = 0 → PollTail mask (statusEvs v₀ v₁)
  | step (v₀ v₁ : Nat) (t : List Ev) : v₁ &&& mask ≠ 0 → PollTail mask t →
      PollTail mask (statusEvs v₀ v₁ ++ t)

theorem bindE_ok_elim {α β : Type} {m : St → Except Err α × St}
    {f : α → St → Except Err β × St} {s s' : St} {b : β}
    (h : bindE m f s = (Except.ok b, s')) :
    ∃ a s₁, m s = (Except.ok a, s₁) ∧ f a s₁ = (Except.ok b, s') := by
  rcases hm : m s with ⟨r, s₁⟩
  cases r with
  | error e =>
    rw [bindE_of_error hm] at h
    simp at h
  | ok a =>
    rw [bindE_of_ok hm] at h
    exact ⟨a, s₁, rfl, h⟩

theorem status_read_ok_shape (env : Env) (s s₁ : St) (v : Nat)
    (h : status_read env s = (Except.ok v, s₁)) :
    v = env.rx s.spiCnt 1 % 256 ∧
      s₁ = advance s (statusEvs (env.rx s.spiCnt 0 % 256) v) 2 1 := by
  cases h₀ : env.pinFail s.pinCnt <;>
    cases h₁ : env.spiFail s.spiCnt <;>
      cases h₂ : env.pinFail (s.pinCnt + 1) <;>
        simp_all [status_read, bindE, read, with_select, setLow, setHigh, spiTransferOp,
          rxList, statusEvs, advance, List.range_succ]
  rw [← h.1]
  exact h.2.symm

theorem pollClear_ok (env : Env) (mask : Nat) :
    ∀ (fuel : Nat) (s s' : St), pollClear env mask fuel s = (Except.ok (), s') →
      ∃ t, s'.trace = s.trace ++ t ∧ PollTail mask t ∧
        s'.color_mode = s.color_mode ∧ s'.csLowLevel = false := by
  intro fuel
  induction fuel with
  | zero =>
    intro s s' h
    simp [pollClear] at h
  | succ n ih =>
    intro s s' h
    rw [pollClear] at h
    split at h
    next e s₁ heq => simp at h
    next v s₁ heq =>
      obtain ⟨hv, hs₁⟩ := status_read_ok_shape env s s₁ v heq
      by_cases hm : v &&& mask = 0
      · rw [if_neg (not_not_intro hm)] at h
        cases h
        exact ⟨statusEvs (env.rx s.spiCnt 0 % 256) v,
          by rw [hs₁]; rfl, PollTail.last _ _ hm, by rw [hs₁]; rfl, by rw [hs₁]; rfl⟩
      · rw [if_pos hm] at h
        obtain ⟨t, ht, hp, hmode, hcs⟩ := ih s₁ s' h
        refine ⟨statusEvs (env.rx s.spiCnt 0 % 256) v ++ t, ?_,
          PollTail.step _ _ _ hm hp, ?_, hcs⟩
        · rw [ht, hs₁]
          simp [advance]
        · rw [hmode, hs₁]
          rfl

theorem fg_color_ok (env : Env) (r g b : Nat) (s : St)
    (hpin : ∀ n, env.pinFail n = false) (hspi : ∀ n, env.spiFail n = false) :
    fg_color env r g b s =
      (Except.ok (), advance s (rwEvs 210 r ++ rwEvs 211 g ++ rwEvs 212 b) 12 6) := by
  rw [fg_color, bindE_of_ok (register_write_ok env 210 r s hpin hspi),
    bindE_of_ok (register_write_ok env 211 g _ hpin hspi),
    register_write_ok env 212 b _ hpin hspi, advance_advance, advance_advance]
  rfl

theorem line_start_ok (env : Env) (x y : Nat) (s : St)
    (hpin : ∀ n, env.pinFail n = false) (hspi : ∀ n, env.spiFail n = false) :
    line_start env x y s = (Except.ok (), advance s
      (rwEvs 104 (x % 256) ++ rwEvs 105 ((x >>> 8) % 256) ++
        rwEvs 106 (y % 256) ++ rwEvs 107 ((y >>> 8) % 256)) 16 8) := by
  rw [line_start, bindE_of_ok (register_write_ok env 104 _ s hpin hspi),
    bindE_of_ok (register_write_ok env 105 _ _ hpin hspi),
    bindE_of_ok (register_write_ok env 106 _ _ hpin hspi),
    register_write_ok env 107 _ _ hpin hspi, advance_advance, advance_advance,
    advance_advance]
  rfl

theorem line_end_ok (env : Env) (x y : Nat) (s : St)
    (hpin : ∀ n, env.pinFail n = false) (hspi : ∀ n, env.spiFail n = false) :
    line_end env x y s = (Except.ok (), advance s
      (rwEvs 108 (x % 256) ++ rwEvs 109 ((x >>> 8) % 256) ++
        rwEvs 110 (y % 256) ++ rwEvs 111 ((y >>> 8) % 256)) 16 8) := by
  rw [line_end, bindE_of_ok (register_write_ok env 108 _ s hpin hspi),
    bindE_of_ok (register_write_ok env 109 _ _ hpin hspi),
    bindE_of_ok (register_write_ok env 110 _ _ hpin hspi),
    register_write_ok env 111 _ _ hpin hspi, advance_advance, advance_advance,
    advance_advance]
  rfl

theorem goto_pixel_ok (env : Env) (x y : Nat) (s : St)
    (hpin : ∀ n, env.pinFail n = false) (hspi : ∀ n, env.spiFail n = false) :
    goto_pixel env x y s = (Except.ok (), advance s
      (rwEvs 95 (x % 256) ++ rwEvs 96 ((x >>> 8) % 256) ++
        rwEvs 97 (y % 256) ++ rwEvs 98 ((y >>> 8) % 256)) 16 8) := by
  rw [goto_pixel, bindE_of_ok (register_write_ok env 95 _ s hpin hspi),
    bindE_of_ok (register_write_ok env 96 _ _ hpin hspi),
    bindE_of_ok (register_write_ok env 97 _ _ hpin hspi),
    register_write_ok env 98 _ _ hpin hspi, advance_advance, advance_advance,
    advance_advance]
  rfl

/-- Trace of the deterministic part of `fill_solid` on the 16-bit adapter:
foreground-color writes (0xD2, 0xD3, 0xD4), line-start writes, line-end
writes, fill command 0x76 := 0xE0. -/
def fillEvs16 (c : Rgb565) (d : Rect) : List Ev :=
  rwEvs 210 (((c.r % 256) <<< 3) % 256) ++ rwEvs 211 (((c.g % 256) <<< 2) % 256) ++
    rwEvs 212 (((c.b % 256) <<< 3) % 256) ++
  rwEvs 104 (u16ofInt d.x % 256) ++ rwEvs 105 ((u16ofInt d.x >>> 8) % 256) ++
    rwEvs 106 (u16ofInt d.y % 256) ++ rwEvs 107 ((u16ofInt d.y >>> 8) % 256) ++
  rwEvs 108 (u16ofInt (d.x + d.w - 1) % 256) ++
    rwEvs 109 ((u16ofInt (d.x + d.w - 1) >>> 8) % 256) ++
    rwEvs 110 (u16ofInt (d.y + d.h - 1) % 256) ++
    rwEvs 111 ((u16ofInt (d.y + d.h - 1) >>> 8) % 256) ++
  rwEvs 118 224

/-- Trace of the deterministic part of `fill_solid` on the 24-bit adapter. -/
def fillEvs24 (c : Rgb888) (d : Rect) : List Ev :=
  rwEvs 210 (c.r % 256) ++ rwEvs 211 (c.g % 256) ++ rwEvs 212 (c.b % 256) ++
  rwEvs 104 (u16ofInt d.x % 256) ++ rwEvs 105 ((u16ofInt d.x >>> 8) % 256) ++
    rwEvs 106 (u16ofInt d.y % 256) ++ rwEvs 107 ((u16ofInt d.y >>> 8) % 256) ++
  rwEvs 108 (u16ofInt (d.x + d.w - 1) % 256) ++
    rwEvs 109 ((u16ofInt (d.x + d.w - 1) >>> 8) % 256) ++
    rwEvs 110 (u16ofInt (d.y + d.h - 1) % 256) ++
    rwEvs 111 ((u16ofInt (d.y + d.h - 1) >>> 8) % 256) ++
  rwEvs 118 224

/-- Claim C4 (confirmed, for both drawing adapters): `fill_solid` with an
empty intersection returns success with the state (hence the bus trace)
unchanged; with a non-degenerate intersection a successful call emits
exactly the foreground-color register writes (0xD2, 0xD3, 0xD4), the
line-start writes, the line-end writes and the fill-command write
(0x76 := 0xE0), in that order, followed by a `status_read` poll that ends
with the first status byte whose draw-busy bit 0x08 is clear. -/
theorem claim_C4 :
    (∀ (env : Env) (fuel : Nat) (area : Rect) (c : Rgb565) (s : St),
      (interRect area screenRect).w = 0 ∧ (interRect area screenRect).h = 0 →
      fill_solid16 env fuel area c s = (Except.ok (), s)) ∧
    (∀ (env : Env) (fuel : Nat) (area : Rect) (c : Rgb565) (s s' : St),
      (∀ n, env.pinFail n = false) → (∀ n, env.spiFail n = false) →
      ¬((interRect area screenRect).w = 0 ∧ (interRect area screenRect).h = 0) →
      fill_solid16 env fuel area c s = (Except.ok (), s') →
      ∃ t, s'.trace = s.trace ++ fillEvs16 c (interRect area screenRect) ++ t ∧
        PollTail 8 t) ∧
    (∀ (env : Env) (fuel : Nat) (area : Rect) (c : Rgb888) (s : St),
      (interRect area screenRect).w = 0 ∧ (interRect area screenRect).h = 0 →
      fill_solid24 env fuel area c s = (Except.ok (), s)) ∧
    (∀ (env : Env) (fuel : Nat) (area : Rect) (c : Rgb888) (s s' : St),
      (∀ n, env.pinFail n = false) → (∀ n, env.spiFail n = false) →
      ¬((interRect area screenRect).w = 0 ∧ (interRect area screenRect).h = 0) →
      fill_solid24 env fuel area c s = (Except.ok (), s') →
      ∃ t, s'.trace = s.trace ++ fillEvs24 c (interRect area screenRect) ++ t ∧
        PollTail 8 t) := by
  refine ⟨?_, ?_, ?_, ?_⟩
  · intro env fuel area c s hz
    rw [fill_solid16]
    simp only [if_pos hz]
  · intro env fuel area c s s' hpin hspi hne h
    rw [fill_solid16] at h
    simp only [if_neg hne] at h
    rw [bindE_of_ok (fg_color_ok env _ _ _ s hpin hspi),
      bindE_of_ok (line_start_ok env _ _ _ hpin hspi),
      bindE_of_ok (line_end_ok env _ _ _ hpin hspi), rect_fill,
      bindE_of_ok (register_write_ok env 118 224 _ hpin hspi), busy_draw,
      advance_advance, advance_advance, advance_advance] at h
    obtain ⟨t, ht, hp, _, _⟩ := pollClear_ok env 8 fuel _ s' h
    refine ⟨t, ?_, hp⟩
    rw [ht]
    simp [advance, fillEvs16]
  · intro env fuel area c s hz
    rw [fill_solid24]
    simp only [if_pos hz]
  · intro env fuel area c s s' hpin hspi hne h
    rw [fill_solid24] at h
    simp only [if_neg hne] at h
    rw [bindE_of_ok (fg_color_ok env _ _ _ s hpin hspi),
      bindE_of_ok (line_start_ok env _ _ _ hpin hspi),
      bindE_of_ok (line_end_ok env _ _ _ hpin hspi), rect_fill,
      bindE_of_ok (register_write_ok env 118 224 _ hpin hspi), busy_draw,
      advance_advance, advance_advance, advance_advance] at h
    obtain ⟨t, ht, hp, _, _⟩ := pollClear_ok env 8 fuel _ s' h
    refine ⟨t, ?_, hp⟩
    rw [ht]
    simp [advance, fillEvs24]

/-- Witness for claim C4: a rectangle far outside the panel produces no
traffic, and a 1×1 rectangle at the origin produces exactly the fill
sequence followed by a draw-idle poll. -/
theorem claim_C4_witness :
    fill_solid16 env0 1 ⟨1000, 1000, 5, 5⟩ ⟨0, 0, 0⟩ st0 = (Except.ok (), st0) ∧
    ∃ t, ((fill_solid16 env0 1 ⟨0, 0, 1, 1⟩ ⟨31, 63, 31⟩ st0).2).trace =
        st0.trace ++ fillEvs16 ⟨31, 63, 31⟩ (interRect ⟨0, 0, 1, 1⟩ screenRect) ++ t ∧
      PollTail 8 t := by
  constructor
  · exact claim_C4.1 env0 1 ⟨1000, 1000, 5, 5⟩ ⟨0, 0, 0⟩ st0 (by decide)
  · exact claim_C4.2.1 env0 1 ⟨0, 0, 1, 1⟩ ⟨31, 63, 31⟩ st0 _
      (fun _ => rfl) (fun _ => rfl) (by decide) rfl

/-- Trace of the cursor-position writes of `goto_pixel`. -/
def gotoEvs (x y : Nat) : List Ev :=
  rwEvs 95 (x % 256) ++ rwEvs 96 ((x >>> 8) % 256) ++
    rwEvs 97 (y % 256) ++ rwEvs 98 ((y >>> 8) % 256)

theorem drawPixel16_ok_shape (env : Env) (fuel : Nat) (x y : Int) (c : Rgb565) (s s' : St)
    (hpin : ∀ n, env.pinFail n = false) (hspi : ∀ n, env.spiFail n = false)
    (hx0 : 0 ≤ x) (hx : x ≤ 480) (hy0 : 0 ≤ y) (hy : y ≤ 272)
    (h : drawPixel16 env fuel x y c s = (Except.ok (), s')) :
    ∃ t₁ t₂, s'.trace = s.trace ++ gotoEvs x.toNat y.toNat ++ cmdEvs 4 ++
        dataEvs ((c.b % 256) ||| (((c.g % 256) <<< 5) % 256)) ++ t₁ ++
        dataEvs (((c.g % 256) >>> 3) ||| (((c.r % 256) <<< 3) % 256)) ++ t₂ ∧
      PollTail 128 t₁ ∧ PollTail 128 t₂ := by
  rw [drawPixel16, if_pos ⟨hx0, hx, hy0, hy⟩,
    bindE_of_ok (goto_pixel_ok env _ _ s hpin hspi),
    bindE_of_ok (cmd_write_ok env 4 _ hpin hspi)] at h
  rw [px16bytes, writePixelBytes,
    bindE_of_ok (data_write_ok env _ _ hpin hspi), check_mem_wr_fifo_ready] at h
  obtain ⟨a, s₂, hp₁, h⟩ := bindE_ok_elim h
  obtain ⟨t₁, ht₁, hpt₁, _, _⟩ := pollClear_ok env 128 fuel _ _ hp₁
  rw [writePixelBytes, bindE_of_ok (data_write_ok env _ _ hpin hspi),
    check_mem_wr_fifo_ready] at h
  obtain ⟨a₂, s₄, hp₂, h⟩ := bindE_ok_elim h
  obtain ⟨t₂, ht₂, hpt₂, _, _⟩ := pollClear_ok env 128 fuel _ _ hp₂
  rw [writePixelBytes] at h
  cases h
  refine ⟨t₁, t₂, ?_, hpt₁, hpt₂⟩
  rw [ht₂]
  simp [advance, ht₁, gotoEvs]

theorem drawPixel24_ok_shape (env : Env) (fuel : Nat) (x y : Int) (c : Rgb888) (s s' : St)
    (hpin : ∀ n, env.pinFail n = false) (hspi : ∀ n, env.spiFail n = false)
    (hx0 : 0 ≤ x) (hx : x ≤ 480) (hy0 : 0 ≤ y) (hy : y ≤ 272)
    (h : drawPixel24 env fuel x y c s = (Except.ok (), s')) :
    ∃ t₁ t₂ t₃, s'.trace = s.trace ++ gotoEvs x.toNat y.toNat ++ cmdEvs 4 ++
        dataEvs (c.b % 256) ++ t₁ ++ dataEvs (c.g % 256) ++ t₂ ++
        dataEvs (c.r % 256) ++ t₃ ∧
      PollTail 128 t₁ ∧ PollTail 128 t₂ ∧ PollTail 128 t₃ := by
  rw [drawPixel24, if_pos ⟨hx0, hx, hy0, hy⟩,
    bindE_of_ok (goto_pixel_ok env _ _ s hpin hspi),
    bindE_of_ok (cmd_write_ok env 4 _ hpin hspi)] at h
  rw [px24bytes, writePixelBytes,
    bindE_of_ok (data_write_ok env _ _ hpin hspi), check_mem_wr_fifo_ready] at h
  obtain ⟨a, s₂, hp₁, h⟩ := bindE_ok_elim h
  obtain ⟨t₁, ht₁, hpt₁, _, _⟩ := pollClear_ok env 128 fuel _ _ hp₁
  rw [writePixelBytes, bindE_of_ok (data_write_ok env _ _ hpin hspi),
    check_mem_wr_fifo_ready] at h
  obtain ⟨a₂, s₄, hp₂, h⟩ := bindE_ok_elim h
  obtain ⟨t₂, ht₂, hpt₂, _, _⟩ := pollClear_ok env 128 fuel _ _ hp₂
  rw [writePixelBytes, bindE_of_ok (data_write_ok env _ _ hpin hspi),
    check_mem_wr_fifo_ready] at h
  obtain ⟨a₃, s₆, hp₃, h⟩ := bindE_ok_elim h
  obtain ⟨t₃, ht₃, hpt₃, _, _⟩ := pollClear_ok env 128 fuel _ _ hp₃
  rw [writePixelBytes] at h
  cases h
  refine ⟨t₁, t₂, t₃, ?_, hpt₁, hpt₂, hpt₃⟩
  rw [ht₃]
  simp [advance, ht₂, ht₁, gotoEvs]

/-- Claim C9 (confirmed): for any pixel strictly inside the panel bounds,
the per-pixel draw path of both adapters first writes the cursor position
(registers 0x5F–0x62), then selects the pixel-write command register 0x04,
then writes the mode-specific data bytes — `b | (g << 5)`, `(g >> 3) | (r << 3)`
packing RGB565 in 16-bit mode; blue, green, red in 24-bit mode — each byte
followed by a `status_read` poll that ends with the first status byte whose
write-FIFO-full bit 0x80 is clear. -/
theorem claim_C9 :
    (∀ (env : Env) (fuel : Nat) (x y : Int) (c : Rgb565) (s s' : St),
      (∀ n, env.pinFail n = false) → (∀ n, env.spiFail n = false) →
      0 ≤ x → x < 480 → 0 ≤ y → y < 272 →
      draw_iter16 env fuel [((x, y), c)] s = (Except.ok (), s') →
      ∃ t₁ t₂, s'.trace = s.trace ++ gotoEvs x.toNat y.toNat ++ cmdEvs 4 ++
          dataEvs ((c.b % 256) ||| (((c.g % 256) <<< 5) % 256)) ++ t₁ ++
          dataEvs (((c.g % 256) >>> 3) ||| (((c.r % 256) <<< 3) % 256)) ++ t₂ ∧
        PollTail 128 t₁ ∧ PollTail 128 t₂) ∧
    (∀ (env : Env) (fuel : Nat) (x y : Int) (c : Rgb888) (s s' : St),
      (∀ n, env.pinFail n = false) → (∀ n, env.spiFail n = false) →
      0 ≤ x → x < 480 → 0 ≤ y → y < 272 →
      draw_iter24 env fuel [((x, y), c)] s = (Except.ok (), s') →
      ∃ t₁ t₂ t₃, s'.trace = s.trace ++ gotoEvs x.toNat y.toNat ++ cmdEvs 4 ++
          dataEvs (c.b % 256) ++ t₁ ++ dataEvs (c.g % 256) ++ t₂ ++
          dataEvs (c.r % 256) ++ t₃ ∧
        PollTail 128 t₁ ∧ PollTail 128 t₂ ∧ PollTail 128 t₃) := by
  constructor
  · intro env fuel x y c s s' hpin hspi hx0 hx hy0 hy h
    simp only [draw_iter16] at h
    split at h
    next e s₁ heq => simp at h
    next a s₁ heq =>
      cases h
      exact drawPixel16_ok_shape env fuel x y c s _ hpin hspi hx0 (by omega) hy0
        (by omega) heq
  · intro env fuel x y c s s' hpin hspi hx0 hx hy0 hy h
    simp only [draw_iter24] at h
    split at h
    next e s₁ heq => simp at h
    next a s₁ heq =>
      cases h
      exact drawPixel24_ok_shape env fuel x y c s _ hpin hspi hx0 (by omega) hy0
        (by omega) heq

/-- Witness for claim C9 at the origin pixel in both color depths. -/
theorem claim_C9_witness :
    (∃ t₁ t₂, ((draw_iter16 env0 1 [((0, 0), ⟨1, 2, 3⟩)] st0).2).trace =
        st0.trace ++ gotoEvs 0 0 ++ cmdEvs 4 ++ dataEvs 67 ++ t₁ ++ dataEvs 8 ++ t₂ ∧
      PollTail 128 t₁ ∧ PollTail 128 t₂) ∧
    (∃ t₁ t₂ t₃, ((draw_iter24 env0 1 [((0, 0), ⟨1, 2, 3⟩)] st0).2).trace =
        st0.trace ++ gotoEvs 0 0 ++ cmdEvs 4 ++ dataEvs 3 ++ t₁ ++ dataEvs 2 ++ t₂ ++
          dataEvs 1 ++ t₃ ∧
      PollTail 128 t₁ ∧ PollTail 128 t₂ ∧ PollTail 128 t₃) := by
  constructor
  · exact claim_C9.1 env0 1 0 0 ⟨1, 2, 3⟩ st0 _ (fun _ => rfl) (fun _ => rfl)
      (by decide) (by decide) (by decide) (by decide) rfl
  · exact claim_C9.2 env0 1 0 0 ⟨1, 2, 3⟩ st0 _ (fun _ => rfl) (fun _ => rfl)
      (by decide) (by decide) (by decide) (by decide) rfl

/-- Claim C3 (code bug): the bounds guard of `draw_iter` uses the inclusive
range patterns `0..=WIDTH` and `0..=HEIGHT`, so the out-of-bounds pixel
(480, 0) of the 480×272 panel passes the guard and emits a full cursor-write
and pixel-write sequence, where the claim (and the `DrawTarget` contract the
code implements) requires out-of-bounds pixels to be dropped with no bus
traffic.  Coordinates beyond the inclusive bound, e.g. (481, 0), are indeed
dropped silently. -/
theorem claim_C3_code_eval :
    draw_iter16 env0 1 [((480, 0), ⟨0, 0, 0⟩)] st0 = (Except.ok (),
      advance st0 (gotoEvs 480 0 ++ cmdEvs 4 ++ dataEvs 0 ++ statusEvs 0 0 ++
        dataEvs 0 ++ statusEvs 0 0) 26 13) ∧
    draw_iter16 env0 1 [((481, 0), ⟨0, 0, 0⟩)] st0 = (Except.ok (), st0) ∧
    draw_iter16 env0 1 [((-1, 5), ⟨0, 0, 0⟩)] st0 = (Except.ok (), st0) ∧
    draw_iter24 env0 1 [((0, 272), ⟨0, 0, 0⟩)] st0 = (Except.ok (),
      advance st0 (gotoEvs 0 272 ++ cmdEvs 4 ++ dataEvs 0 ++ statusEvs 0 0 ++
        dataEvs 0 ++ statusEvs 0 0 ++ dataEvs 0 ++ statusEvs 0 0) 30 15) := by
  refine ⟨rfl, rfl, rfl, rfl⟩

/-- `tft_16bit` (src/lib.rs:383). -/
def tft_16bit (env : Env) : St → Except Err Unit × St :=
  rmw env 1 fun v => (v ||| 16) &&& (255 ^^^ 8)

/-- `host_16bit` (src/lib.rs:389). -/
def host_16bit (env : Env) : St → Except Err Unit × St :=
  rmw env 1 fun v => v ||| 1

/-- `rgb_16bit_16bpp` (src/lib.rs:395). -/
def rgb_16bit_16bpp (env : Env) : St → Except Err Unit × St :=
  rmw env 2 fun v => (v ||| 64) &&& (255 ^^^ 128)

/-- `memwrite_left_right_top_down` (src/lib.rs:401). -/
def memwrite_left_right_top_down (env : Env) : St → Except Err Unit × St :=
  rmw env 2 fun v => v &&& (255 ^^^ 6)

/-- `graphic_mode` (src/lib.rs:407). -/
def graphic_mode (env : Env) : St → Except Err Unit × St :=
  rmw env 3 fun v => v &&& (255 ^^^ 4)

/-- `mem_select_sdram` (src/lib.rs:413). -/
def mem_select_sdram (env : Env) : St → Except Err Unit × St :=
  rmw env 3 fun v => v &&& (255 ^^^ 3)

/-- `hscan_l_to_r` (src/lib.rs:419). -/
def hscan_l_to_r (env : Env) : St → Except Err Unit × St :=
  rmw env 18 fun v => v &&& (255 ^^^ 16)

/-- `vscan_t_to_b` (src/lib.rs:425). -/
def vscan_t_to_b (env : Env) : St → Except Err Unit × St :=
  rmw env 18 fun v => v &&& (255 ^^^ 8)

/-- `pdata_set_rgb` (src/lib.rs:431). -/
def pdata_set_rgb (env : Env) : St → Except Err Unit × St :=
  rmw env 18 fun v => v &&& (255 ^^^ 7)

/-- `pclk_falling` (src/lib.rs:498). -/
def pclk_falling (env : Env) : St → Except Err Unit × St :=
  rmw env 18 fun v => v ||| 128

/-- `hsync_low_active` (src/lib.rs:505). -/
def hsync_low_active (env : Env) : St → Except Err Unit × St :=
  rmw env 19 fun v => v &&& (255 ^^^ 128)

/-- `vsync_low_active` (src/lib.rs:512). -/
def vsync_low_active (env : Env) : St → Except Err Unit × St :=
  rmw env 19 fun v => v &&& (255 ^^^ 64)

/-- `de_high_active` (src/lib.rs:519). -/
def de_high_active (env : Env) : St → Except Err Unit × St :=
  rmw env 19 fun v => v &&& (255 ^^^ 32)

/-- `memory_xy_mode` (src/lib.rs:478). -/
def memory_xy_mode (env : Env) : St → Except Err Unit × St :=
  rmw env 94 fun v => v &&& (255 ^^^ 4)

/-- `set_width_height` (src/lib.rs:437): registers 0x14 := `w / 8 - 1`
(wrapping), 0x15 := `w % 8`, 0x1A/0x1B := `h - 1` (wrapping) low/high. -/
def set_width_height (env : Env) (w h : Nat) : St → Except Err Unit × St :=
  bindE (register_write env 20 (wsub16 (w / 8) 1 % 256)) fun _ =>
  bindE (register_write env 21 (w % 8)) fun _ =>
  bindE (register_write env 26 (wsub16 h 1 % 256)) fun _ =>
  register_write env 27 ((wsub16 h 1 >>> 8) % 256)

/-- `pll_init` (src/lib.rs:330): the six PLL registers, the PLL latch
command pair (delays elided), and the PWM 100% defaults. -/
def pll_init (env : Env) : St → Except Err Unit × St :=
  bindE (register_write env 5 ((2 <<< 6) ||| (5 <<< 1))) fun _ =>
  bindE (register_write env 7 ((2 <<< 6) ||| (5 <<< 1))) fun _ =>
  bindE (register_write env 9 ((2 <<< 6) ||| (5 <<< 1))) fun _ =>
  bindE (register_write env 6 15) fun _ =>
  bindE (register_write env 8 100) fun _ =>
  bindE (register_write env 10 100) fun _ =>
  bindE (cmd_write env 0) fun _ =>
  bindE (data_write env 128) fun _ =>
  bindE (register_write env 133 10) fun _ =>
  bindE (register_write env 136 100) fun _ =>
  bindE (register_write env 138 100) fun _ =>
  bindE (register_write env 140 100) fun _ =>
  bindE (register_write env 142 100) fun _ =>
  register_write env 134 51

/-- `sdram_check_ready` (src/lib.rs:376): poll until the SDRAM-ready bit
0x04 is set. -/
def sdram_check_ready (env : Env) (fuel : Nat) : St → Except Err Unit × St :=
  pollSet env 4 fuel

/-- `sdram_init` (src/lib.rs:363). -/
def sdram_init (env : Env) (fuel : Nat) : St → Except Err Unit × St :=
  bindE (register_write env 224 41) fun _ =>
  bindE (register_write env 225 3) fun _ =>
  bindE (register_write env 226 (476 % 256)) fun _ =>
  bindE (register_write env 227 ((476 >>> 8) % 256)) fun _ =>
  bindE (register_write env 228 1) fun _ =>
  sdram_check_ready env fuel

/-- `system_check_temp` (src/lib.rs:313): loop (with fuel): once the
reset-busy bit 0x02 clears, probe command 0x01; done when the read-back has
bit 0x80 set, otherwise re-trigger (command 0x01, data 0x80) and retry. -/
def system_check_temp (env : Env) : Nat → St → Except Err Unit × St
  | 0, s => (Except.error Err.timeout, s)
  | fuel + 1, s =>
    (bindE (status_read env) fun v s₁ =>
      if v &&& 2 = 0 then
        (bindE (cmd_write env 1) fun _ =>
          bindE (data_read env) fun d s₂ =>
            if d &&& 128 = 128 then (Except.ok (), s₂)
            else
              (bindE (cmd_write env 1) fun _ =>
                bindE (data_write env 128) fun _ =>
                system_check_temp env fuel) s₂) s₁
      else system_check_temp env fuel s₁) s

/-- `main_image` (src/lib.rs:273): registers 0x20–0x23 := base address
bytes, 0x24/0x25 := width, 0x26/0x27 := x, 0x28/0x29 := y. -/
def main_image (env : Env) (addr x y w : Nat) : St → Except Err Unit × St :=
  bindE (register_write env 32 (addr % 256)) fun _ =>
  bindE (register_write env 33 ((addr >>> 8) % 256)) fun _ =>
  bindE (register_write env 34 ((addr >>> 16) % 256)) fun _ =>
  bindE (register_write env 35 ((addr >>> 24) % 256)) fun _ =>
  bindE (register_write env 36 (w % 256)) fun _ =>
  bindE (register_write env 37 ((w >>> 8) % 256)) fun _ =>
  bindE (register_write env 38 (x % 256)) fun _ =>
  bindE (register_write env 39 ((x >>> 8) % 256)) fun _ =>
  bindE (register_write env 40 (y % 256)) fun _ =>
  register_write env 41 ((y >>> 8) % 256)

/-- `canvas_image` (src/lib.rs:289): registers 0x50–0x53 := base address
bytes, 0x54/0x55 := width. -/
def canvas_image (env : Env) (addr w : Nat) : St → Except Err Unit × St :=
  bindE (register_write env 80 (addr % 256)) fun _ =>
  bindE (register_write env 81 ((addr >>> 8) % 256)) fun _ =>
  bindE (register_write env 82 ((addr >>> 16) % 256)) fun _ =>
  bindE (register_write env 83 ((addr >>> 24) % 256)) fun _ =>
  bindE (register_write env 84 (w % 256)) fun _ =>
  register_write env 85 ((w >>> 8) % 256)

/-- `active_window` (src/lib.rs:242): registers 0x56–0x5D. -/
def active_window (env : Env) (x y w h : Nat) : St → Except Err Unit × St :=
  bindE (register_write env 86 (x % 256)) fun _ =>
  bindE (register_write env 87 ((x >>> 8) % 256)) fun _ =>
  bindE (register_write env 88 (y % 256)) fun _ =>
  bindE (register_write env 89 ((y >>> 8) % 256)) fun _ =>
  bindE (register_write env 90 (w % 256)) fun _ =>
  bindE (register_write env 91 ((w >>> 8) % 256)) fun _ =>
  bindE (register_write env 92 (h % 256)) fun _ =>
  register_write env 93 ((h >>> 8) % 256)

/-- `init` (src/lib.rs:163): the full bring-up sequence, reading (never
writing) the handle's `color_mode` field for the three color-format steps;
`WIDTH = 480`, `HEIGHT = 272`, porches 140/160/20 and 20/12/3. -/
def init (env : Env) (fuel : Nat) : St → Except Err Unit × St :=
  bindE (system_check_temp env fuel) fun _ =>
  bindE (pollClear env 2 fuel) fun _ =>
  bindE (pll_init env) fun _ =>
  bindE (sdram_init env fuel) fun _ =>
  bindE (tft_16bit env) fun _ =>
  bindE (host_16bit env) fun _ =>
  bindE (rgb_16bit_16bpp env) fun _ =>
  bindE (memwrite_left_right_top_down env) fun _ =>
  bindE (graphic_mode env) fun _ =>
  bindE (mem_select_sdram env) fun _ =>
  bindE (hscan_l_to_r env) fun _ =>
  bindE (vscan_t_to_b env) fun _ =>
  bindE (pdata_set_rgb env) fun _ =>
  bindE (pclk_falling env) fun _ =>
  bindE (hsync_low_active env) fun _ =>
  bindE (vsync_low_active env) fun _ =>
  bindE (de_high_active env) fun _ =>
  bindE (set_width_height env 480 272) fun _ =>
  bindE (set_horiz_non_display env 140) fun _ =>
  bindE (set_horiz_start_pos env 160) fun _ =>
  bindE (set_horiz_pulse_width env 20) fun _ =>
  bindE (set_vert_non_display env 20) fun _ =>
  bindE (set_vert_start_pos env 12) fun _ =>
  bindE (set_vert_pulse_width env 3) fun _ =>
  bindE (fun s => select_main_window_color_mode env s.color_mode s) fun _ =>
  bindE (memory_xy_mode env) fun _ =>
  bindE (fun s => memory_color_mode env s.color_mode s) fun _ =>
  bindE (fun s => select_main_window_color_mode env s.color_mode s) fun _ =>
  bindE (display_on env true) fun _ =>
  bindE (fun s => select_main_window_color_mode env s.color_mode s) fun _ =>
  bindE (main_image env 0 0 0 480) fun _ =>
  bindE (canvas_image env 0 480) fun _ =>
  active_window env 0 0 480 272

/-- `set_pwm_prescaler_1_to_256` (src/lib.rs:526): register 0x84 :=
`v.saturating_sub(1)`. -/
def set_pwm_prescaler_1_to_256 (env : Env) (v : Nat) : St → Except Err Unit × St :=
  register_write env 132 ((v - 1) % 256)

/-- `select_pwm1_clock_div_by_1` (src/lib.rs:531). -/
def select_pwm1_clock_div_by_1 (env : Env) : St → Except Err Unit × St :=
  rmw env 133 fun v => v &&& (255 ^^^ 192)

/-- `select_pwm1` (src/lib.rs:542). -/
def select_pwm1 (env : Env) : St → Except Err Unit × St :=
  rmw env 133 fun v => (v ||| 8) &&& (255 ^^^ 4)

/-- `start_pwm1` (src/lib.rs:549). -/
def start_pwm1 (env : Env) : St → Except Err Unit × St :=
  rmw env 134 fun v => v ||| 16

/-- `set_timer1_count_buffer` (src/lib.rs:556): registers 0x8E/0x8F. -/
def set_timer1_count_buffer (env : Env) (v : Nat) : St → Except Err Unit × St :=
  bindE (register_write env 142 (v % 256)) fun _ =>
  register_write env 143 ((v >>> 8) % 256)

/-- `set_timer1_compare_buffer` (src/lib.rs:562): registers 0x8C/0x8D. -/
def set_timer1_compare_buffer (env : Env) (v : Nat) : St → Except Err Unit × St :=
  bindE (register_write env 140 (v % 256)) fun _ =>
  register_write env 141 ((v >>> 8) % 256)

/-- `set_brightness` (src/lib.rs:568). -/
def set_brightness (env : Env) (v : Nat) : St → Except Err Unit × St :=
  bindE (select_pwm1 env) fun _ =>
  bindE (set_pwm_prescaler_1_to_256 env 20) fun _ =>
  bindE (select_pwm1_clock_div_by_1 env) fun _ =>
  bindE (set_timer1_count_buffer env 100) fun _ =>
  bindE (set_timer1_compare_buffer env v) fun _ =>
  start_pwm1 env

/-- An operation preserves the recorded color-depth mode of the handle. -/
def PreservesSt {α : Type} (m : St → Except Err α × St) : Prop :=
  ∀ s, ((m s).2).color_mode = s.color_mode

theorem preserves_bindE {α β : Type} {m : St → Except Err α × St}
    {f : α → St → Except Err β × St} (hm : PreservesSt m)
    (hf : ∀ a, PreservesSt (f a)) : PreservesSt (bindE m f) := by
  intro s
  rcases hms : m s with ⟨r, s₁⟩
  have h₁ : s₁.color_mode = s.color_mode := by
    have hx := hm s
    rw [hms] at hx
    exact hx
  cases r with
  | error e =>
    rw [bindE_of_error hms]
    exact h₁
  | ok a =>
    rw [bindE_of_ok hms]
    exact (hf a s₁).trans h₁

theorem preserves_write (env : Env) (bs : List Nat) : PreservesSt (write env bs) := by
  intro s
  cases h₀ : env.pinFail s.pinCnt <;>
    cases h₁ : env.spiFail s.spiCnt <;>
      cases h₂ : env.pinFail (s.pinCnt + 1) <;>
        simp [write, with_select, setLow, setHigh, spiWriteOp, h₀, h₁, h₂]

theorem preserves_read (env : Env) (tx : List Nat) : PreservesSt (read env tx) := by
  intro s
  cases h₀ : env.pinFail s.pinCnt <;>
    cases h₁ : env.spiFail s.spiCnt <;>
      cases h₂ : env.pinFail (s.pinCnt + 1) <;>
        simp [read, with_select, setLow, setHigh, spiTransferOp, h₀, h₁, h₂]

theorem preserves_cmd_write (env : Env) (c : Nat) : PreservesSt (cmd_write env c) :=
  preserves_write env [0, c]

theorem preserves_data_write (env : Env) (v : Nat) : PreservesSt (data_write env v) :=
  preserves_write env [128, v]

theorem preserves_status_read (env : Env) : PreservesSt (status_read env) :=
  preserves_bindE (preserves_read env [64, 0]) fun _ _ => rfl

theorem preserves_data_read (env : Env) : PreservesSt (data_read env) :=
  preserves_bindE (preserves_read env [192, 0]) fun _ _ => rfl

theorem preserves_register_write (env : Env) (a v : Nat) :
    PreservesSt (register_write env a v) :=
  preserves_bindE (preserves_cmd_write env a) fun _ => preserves_data_write env v

theorem preserves_rmw (env : Env) (a : Nat) (f : Nat → Nat) : PreservesSt (rmw env a f) :=
  preserves_bindE (preserves_cmd_write env a) fun _ =>
    preserves_bindE (preserves_data_read env) fun v => preserves_data_write env (f v)

theorem preserves_pollClear (env : Env) (mask : Nat) :
    ∀ fuel, PreservesSt (pollClear env mask fuel) := by
  intro fuel
  induction fuel with
  | zero => intro s; rfl
  | succ n ih =>
    intro s
    rw [pollClear]
    rcases hs : status_read env s with ⟨r, s₁⟩
    have h₁ : s₁.color_mode = s.color_mode := by
      have hx := preserves_status_read env s
      rw [hs] at hx
      exact hx
    cases r with
    | error e => exact h₁
    | ok v =>
      show ((if v &&& mask ≠ 0 then pollClear env mask n s₁
          else (Except.ok (), s₁)).2).color_mode = s.color_mode
      by_cases hm : v &&& mask ≠ 0
      · rw [if_pos hm]
        exact (ih s₁).trans h₁
      · rw [if_neg hm]
        exact h₁

theorem preserves_pollSet (env : Env) (mask : Nat) :
    ∀ fuel, PreservesSt (pollSet env mask fuel) := by
  intro fuel
  induction fuel with
  | zero => intro s; rfl
  | succ n ih =>
    intro s
    rw [pollSet]
    rcases hs : status_read env s with ⟨r, s₁⟩
    have h₁ : s₁.color_mode = s.color_mode := by
      have hx := preserves_status_read env s
      rw [hs] at hx
      exact hx
    cases r with
    | error e => exact h₁
    | ok v =>
      show ((if v &&& mask = 0 then pollSet env mask n s₁
          else (Except.ok (), s₁)).2).color_mode = s.color_mode
      by_cases hm : v &&& mask = 0
      · rw [if_pos hm]
        exact (ih s₁).trans h₁
      · rw [if_neg hm]
        exact h₁

theorem preserves_system_check_temp (env : Env) :
    ∀ fuel, PreservesSt (system_check_temp env fuel) := by
  intro fuel
  induction fuel with
  | zero => intro s; rfl
  | succ n ih =>
    intro s
    rw [system_check_temp]
    refine preserves_bindE (preserves_status_read env) (fun v s₁ => ?_) s
    by_cases hv : v &&& 2 = 0
    · rw [if_pos hv]
      refine preserves_bindE (preserves_cmd_write env 1)
        (fun _ => preserves_bindE (preserves_data_read env) fun d s₂ => ?_) s₁
      by_cases hd : d &&& 128 = 128
      · rw [if_pos hd]
      · rw [if_neg hd]
        exact preserves_bindE (preserves_cmd_write env 1)
          (fun _ => preserves_bindE (preserves_data_write env 128) fun _ => ih) s₂
    · rw [if_neg hv]
      exact ih s₁

theorem preserves_pll_init (env : Env) : PreservesSt (pll_init env) :=
  preserves_bindE (preserves_register_write env _ _) fun _ =>
  preserves_bindE (preserves_register_write env _ _) fun _ =>
  preserves_bindE (preserves_register_write env _ _) fun _ =>
  preserves_bindE (preserves_register_write env _ _) fun _ =>
  preserves_bindE (preserves_register_write env _ _) fun _ =>
  preserves_bindE (preserves_register_write env _ _) fun _ =>
  preserves_bindE (preserves_cmd_write env _) fun _ =>
  preserves_bindE (preserves_data_write env _) fun _ =>
  preserves_bindE (preserves_register_write env _ _) fun _ =>
  preserves_bindE (preserves_register_write env _ _) fun _ =>
  preserves_bindE (preserves_register_write env _ _) fun _ =>
  preserves_bindE (preserves_register_write env _ _) fun _ =>
  preserves_bindE (preserves_register_write env _ _) fun _ =>
  preserves_register_write env _ _

theorem preserves_sdram_init (env : Env) (fuel : Nat) :
    PreservesSt (sdram_init env fuel) :=
  preserves_bindE (preserves_register_write env _ _) fun _ =>
  preserves_bindE (preserves_register_write env _ _) fun _ =>
  preserves_bindE (preserves_register_write env _ _) fun _ =>
  preserves_bindE (preserves_register_write env _ _) fun _ =>
  preserves_bindE (preserves_register_write env _ _) fun _ =>
  preserves_pollSet env 4 fuel

theorem preserves_set_width_height (env : Env) (w h : Nat) :
    PreservesSt (set_width_height env w h) :=
  preserves_bindE (preserves_register_write env _ _) fun _ =>
  preserves_bindE (preserves_register_write env _ _) fun _ =>
  preserves_bindE (preserves_register_write env _ _) fun _ =>
  preserves_register_write env _ _

theorem preserves_set_horiz_non_display (env : Env) (w : Nat) :
    PreservesSt (set_horiz_non_display env w) :=
  preserves_bindE (preserves_register_write env _ _) fun _ => preserves_register_write env _ _

theorem preserves_set_vert_non_display (env : Env) (v : Nat) :
    PreservesSt (set_vert_non_display env v) :=
  preserves_bindE (preserves_register_write env _ _) fun _ => preserves_register_write env _ _

theorem preserves_main_image (env : Env) (addr x y w : Nat) :
    PreservesSt (main_image env addr x y w) :=
  preserves_bindE (preserves_register_write env _ _) fun _ =>
  preserves_bindE (preserves_register_write env _ _) fun _ =>
  preserves_bindE (preserves_register_write env _ _) fun _ =>
  preserves_bindE (preserves_register_write env _ _) fun _ =>
  preserves_bindE (preserves_register_write env _ _) fun _ =>
  preserves_bindE (preserves_register_write env _ _) fun _ =>
  preserves_bindE (preserves_register_write env _ _) fun _ =>
  preserves_bindE (preserves_register_write env _ _) fun _ =>
  preserves_bindE (preserves_register_write env _ _) fun _ =>
  preserves_register_write env _ _

theorem preserves_canvas_image (env : Env) (addr w : Nat) :
    PreservesSt (canvas_image env addr w) :=
  preserves_bindE (preserves_register_write env _ _) fun _ =>
  preserves_bindE (preserves_register_write env _ _) fun _ =>
  preserves_bindE (preserves_register_write env _ _) fun _ =>
  preserves_bindE (preserves_register_write env _ _) fun _ =>
  preserves_bindE (preserves_register_write env _ _) fun _ =>
  preserves_register_write env _ _

theorem preserves_active_window (env : Env) (x y w h : Nat) :
    PreservesSt (active_window env x y w h) :=
  preserves_bindE (preserves_register_write env _ _) fun _ =>
  preserves_bindE (preserves_register_write env _ _) fun _ =>
  preserves_bindE (preserves_register_write env _ _) fun _ =>
  preserves_bindE (preserves_register_write env _ _) fun _ =>
  preserves_bindE (preserves_register_write env _ _) fun _ =>
  preserves_bindE (preserves_register_write env _ _) fun _ =>
  preserves_bindE (preserves_register_write env _ _) fun _ =>
  preserves_register_write env _ _

theorem preserves_init (env : Env) (fuel : Nat) : PreservesSt (init env fuel) := by
  unfold init
  exact
    preserves_bindE (preserves_system_check_temp env fuel) fun _ =>
    preserves_bindE (preserves_pollClear env 2 fuel) fun _ =>
    preserves_bindE (preserves_pll_init env) fun _ =>
    preserves_bindE (preserves_sdram_init env fuel) fun _ =>
    preserves_bindE (preserves_rmw env 1 _) fun _ =>
    preserves_bindE (preserves_rmw env 1 _) fun _ =>
    preserves_bindE (preserves_rmw env 2 _) fun _ =>
    preserves_bindE (preserves_rmw env 2 _) fun _ =>
    preserves_bindE (preserves_rmw env 3 _) fun _ =>
    preserves_bindE (preserves_rmw env 3 _) fun _ =>
    preserves_bindE (preserves_rmw env 18 _) fun _ =>
    preserves_bindE (preserves_rmw env 18 _) fun _ =>
    preserves_bindE (preserves_rmw env 18 _) fun _ =>
    preserves_bindE (preserves_rmw env 18 _) fun _ =>
    preserves_bindE (preserves_rmw env 19 _) fun _ =>
    preserves_bindE (preserves_rmw env 19 _) fun _ =>
    preserves_bindE (preserves_rmw env 19 _) fun _ =>
    preserves_bindE (preserves_set_width_height env 480 272) fun _ =>
    preserves_bindE (preserves_set_horiz_non_display env 140) fun _ =>
    preserves_bindE (preserves_register_write env _ _) fun _ =>
    preserves_bindE (preserves_register_write env _ _) fun _ =>
    preserves_bindE (preserves_set_vert_non_display env 20) fun _ =>
    preserves_bindE (preserves_register_write env _ _) fun _ =>
    preserves_bindE (preserves_register_write env _ _) fun _ =>
    preserves_bindE (fun s => preserves_rmw env 16 _ s) fun _ =>
    preserves_bindE (preserves_rmw env 94 _) fun _ =>
    preserves_bindE (fun s => preserves_rmw env 94 _ s) fun _ =>
    preserves_bindE (fun s => preserves_rmw env 16 _ s) fun _ =>
    preserves_bindE (preserves_rmw env 18 _) fun _ =>
    preserves_bindE (fun s => preserves_rmw env 16 _ s) fun _ =>
    preserves_bindE (preserves_main_image env 0 0 0 480) fun _ =>
    preserves_bindE (preserves_canvas_image env 0 480) fun _ =>
    preserves_active_window env 0 0 480 272

theorem preserves_fg_color (env : Env) (r g b : Nat) : PreservesSt (fg_color env r g b) :=
  preserves_bindE (preserves_register_write env _ _) fun _ =>
  preserves_bindE (preserves_register_write env _ _) fun _ =>
  preserves_register_write env _ _

theorem preserves_line_start (env : Env) (x y : Nat) : PreservesSt (line_start env x y) :=
  preserves_bindE (preserves_register_write env _ _) fun _ =>
  preserves_bindE (preserves_register_write env _ _) fun _ =>
  preserves_bindE (preserves_register_write env _ _) fun _ =>
  preserves_register_write env _ _

theorem preserves_line_end (env : Env) (x y : Nat) : PreservesSt (line_end env x y) :=
  preserves_bindE (preserves_register_write env _ _) fun _ =>
  preserves_bindE (preserves_register_write env _ _) fun _ =>
  preserves_bindE (preserves_register_write env _ _) fun _ =>
  preserves_register_write env _ _

theorem preserves_goto_pixel (env : Env) (x y : Nat) : PreservesSt (goto_pixel env x y) :=
  preserves_bindE (preserves_register_write env _ _) fun _ =>
  preserves_bindE (preserves_register_write env _ _) fun _ =>
  preserves_bindE (preserves_register_write env _ _) fun _ =>
  preserves_register_write env _ _

theorem preserves_rect_fill (env : Env) (fuel : Nat) : PreservesSt (rect_fill env fuel) :=
  preserves_bindE (preserves_register_write env _ _) fun _ => preserves_pollClear env 8 fuel

theorem preserves_writePixelBytes (env : Env) (fuel : Nat) :
    ∀ vs, PreservesSt (writePixelBytes env fuel vs) := by
  intro vs
  induction vs with
  | nil => intro s; rfl
  | cons v vs ih =>
    intro s
    rw [writePixelBytes]
    exact preserves_bindE (preserves_data_write env v)
      (fun _ => preserves_bindE (preserves_pollClear env 128 fuel) fun _ => ih) s

theorem preserves_drawPixel16 (env : Env) (fuel : Nat) (x y : Int) (c : Rgb565) :
    PreservesSt (drawPixel16 env fuel x y c) := by
  intro s
  rw [drawPixel16]
  by_cases hg : 0 ≤ x ∧ x ≤ 480 ∧ 0 ≤ y ∧ y ≤ 272
  · rw [if_pos hg]
    exact preserves_bindE (preserves_goto_pixel env _ _)
      (fun _ => preserves_bindE (preserves_cmd_write env 4) fun _ =>
        preserves_writePixelBytes env fuel _) s
  · rw [if_neg hg]

theorem preserves_drawPixel24 (env : Env) (fuel : Nat) (x y : Int) (c : Rgb888) :
    PreservesSt (drawPixel24 env fuel x y c) := by
  intro s
  rw [drawPixel24]
  by_cases hg : 0 ≤ x ∧ x ≤ 480 ∧ 0 ≤ y ∧ y ≤ 272
  · rw [if_pos hg]
    exact preserves_bindE (preserves_goto_pixel env _ _)
      (fun _ => preserves_bindE (preserves_cmd_write env 4) fun _ =>
        preserves_writePixelBytes env fuel _) s
  · rw [if_neg hg]

theorem preserves_draw_iter16 (env : Env) (fuel : Nat) :
    ∀ ps, PreservesSt (draw_iter16 env fuel ps) := by
  intro ps
  induction ps with
  | nil => intro s; rfl
  | cons p ps ih =>
    intro s
    rw [draw_iter16]
    rcases hd : drawPixel16 env fuel p.1.1 p.1.2 p.2 s with ⟨r, s₁⟩
    have h₁ : s₁.color_mode = s.color_mode := by
      have hx := preserves_drawPixel16 env fuel p.1.1 p.1.2 p.2 s
      rw [hd] at hx
      exact hx
    cases r with
    | error e => exact h₁
    | ok a => exact (ih s₁).trans h₁

theorem preserves_draw_iter24 (env : Env) (fuel : Nat) :
    ∀ ps, PreservesSt (draw_iter24 env fuel ps) := by
  intro ps
  induction ps with
  | nil => intro s; rfl
  | cons p ps ih =>
    intro s
    rw [draw_iter24]
    rcases hd : drawPixel24 env fuel p.1.1 p.1.2 p.2 s with ⟨r, s₁⟩
    have h₁ : s₁.color_mode = s.color_mode := by
      have hx := preserves_drawPixel24 env fuel p.1.1 p.1.2 p.2 s
      rw [hd] at hx
      exact hx
    cases r with
    | error e => exact h₁
    | ok a => exact (ih s₁).trans h₁

theorem preserves_fill_solid16 (env : Env) (fuel : Nat) (a : Rect) (c : Rgb565) :
    PreservesSt (fill_solid16 env fuel a c) := by
  intro s
  rw [fill_solid16]
  by_cases hz : (interRect a screenRect).w = 0 ∧ (interRect a screenRect).h = 0
  · rw [if_pos hz]
  · rw [if_neg hz]
    exact preserves_bindE (preserves_fg_color env _ _ _)
      (fun _ => preserves_bindE (preserves_line_start env _ _) fun _ =>
        preserves_bindE (preserves_line_end env _ _) fun _ =>
          preserves_rect_fill env fuel) s

theorem preserves_fill_solid24 (env : Env) (fuel : Nat) (a : Rect) (c : Rgb888) :
    PreservesSt (fill_solid24 env fuel a c) := by
  intro s
  rw [fill_solid24]
  by_cases hz : (interRect a screenRect).w = 0 ∧ (interRect a screenRect).h = 0
  · rw [if_pos hz]
  · rw [if_neg hz]
    exact preserves_bindE (preserves_fg_color env _ _ _)
      (fun _ => preserves_bindE (preserves_line_start env _ _) fun _ =>
        preserves_bindE (preserves_line_end env _ _) fun _ =>
          preserves_rect_fill env fuel) s

theorem preserves_set_brightness (env : Env) (v : Nat) :
    PreservesSt (set_brightness env v) :=
  preserves_bindE (preserves_rmw env 133 _) fun _ =>
  preserves_bindE (preserves_register_write env _ _) fun _ =>
  preserves_bindE (preserves_rmw env 133 _) fun _ =>
  preserves_bindE (preserves_bindE (preserves_register_write env _ _) fun _ =>
    preserves_register_write env _ _) fun _ =>
  preserves_bindE (preserves_bindE (preserves_register_write env _ _) fun _ =>
    preserves_register_write env _ _) fun _ =>
  preserves_rmw env 134 _

theorem set_color_mode_error_mode (env : Env) (m : ColorMode) (s : St) (e : Err)
    (h : (set_color_mode env m s).1 = Except.error e) :
    ((set_color_mode env m s).2).color_mode = s.color_mode := by
  by_cases hm : m ≠ s.color_mode
  · rw [set_color_mode, if_pos hm] at h ⊢
    rcases h₁ : memory_color_mode env m s with ⟨r₁, t₁⟩
    have hp₁ : t₁.color_mode = s.color_mode := by
      have hx := preserves_rmw env 94
        (fun v => (v &&& (255 ^^^ 3)) ||| modeMemBits m) s
      rw [show rmw env 94 (fun v => (v &&& (255 ^^^ 3)) ||| modeMemBits m) s
          = memory_color_mode env m s from rfl, h₁] at hx
      exact hx
    cases r₁ with
    | error e₁ =>
      rw [bindE_of_error h₁] at h ⊢
      exact hp₁
    | ok a =>
      rw [bindE_of_ok h₁] at h ⊢
      rcases h₂ : select_main_window_color_mode env m t₁ with ⟨r₂, t₂⟩
      have hp₂ : t₂.color_mode = t₁.color_mode := by
        have hx := preserves_rmw env 16
          (fun v => (v &&& (255 ^^^ 12)) ||| modeWinBits m) t₁
        rw [show rmw env 16 (fun v => (v &&& (255 ^^^ 12)) ||| modeWinBits m) t₁
            = select_main_window_color_mode env m t₁ from rfl, h₂] at hx
        exact hx
      cases r₂ with
      | error e₂ =>
        rw [bindE_of_error h₂] at h ⊢
        exact hp₂.trans hp₁
      | ok b =>
        rw [bindE_of_ok h₂] at h
        simp at h
  · rw [set_color_mode, if_neg hm] at h
    simp at h

/-- Claim C10 (confirmed): the handle's recorded color-depth mode changes
only through a successful `set_color_mode` with a differing mode.  When any
register write inside `set_color_mode` fails, the recorded mode still holds
its previous value (it is assigned only after both writes succeed), and
`init`, the drawing operations of both adapters, and `set_brightness` never
modify it, in any environment and from any state. -/
theorem claim_C10 :
    (∀ (env : Env) (m : ColorMode) (s : St) (e : Err),
      (set_color_mode env m s).1 = Except.error e →
      ((set_color_mode env m s).2).color_mode = s.color_mode) ∧
    (∀ (env : Env) (fuel : Nat) (s : St),
      ((init env fuel s).2).color_mode = s.color_mode) ∧
    (∀ (env : Env) (fuel : Nat) (ps : List ((Int × Int) × Rgb565)) (s : St),
      ((draw_iter16 env fuel ps s).2).color_mode = s.color_mode) ∧
    (∀ (env : Env) (fuel : Nat) (ps : List ((Int × Int) × Rgb888)) (s : St),
      ((draw_iter24 env fuel ps s).2).color_mode = s.color_mode) ∧
    (∀ (env : Env) (fuel : Nat) (a : Rect) (c : Rgb565) (s : St),
      ((fill_solid16 env fuel a c s).2).color_mode = s.color_mode) ∧
    (∀ (env : Env) (fuel : Nat) (a : Rect) (c : Rgb888) (s : St),
      ((fill_solid24 env fuel a c s).2).color_mode = s.color_mode) ∧
    (∀ (env : Env) (v : Nat) (s : St),
      ((set_brightness env v s).2).color_mode = s.color_mode) :=
  ⟨set_color_mode_error_mode,
   fun env fuel s => preserves_init env fuel s,
   fun env fuel ps s => preserves_draw_iter16 env fuel ps s,
   fun env fuel ps s => preserves_draw_iter24 env fuel ps s,
   fun env fuel a c s => preserves_fill_solid16 env fuel a c s,
   fun env fuel a c s => preserves_fill_solid24 env fuel a c s,
   fun env v s => preserves_set_brightness env v s⟩

/-- Witness for claim C10: with a bus that always fails, `set_color_mode`
to a differing mode fails and the recorded mode keeps its old value;
`init` and a brightness call on the all-success environment also leave it
untouched. -/
theorem claim_C10_witness :
    ((set_color_mode env2 ColorMode.TwentyFourBit st0).2).color_mode
        = ColorMode.SixteenBit ∧
    ((init env0 2 st0).2).color_mode = ColorMode.SixteenBit ∧
    ((set_brightness env0 50 st0).2).color_mode = ColorMode.SixteenBit := by
  refine ⟨?_, ?_, ?_⟩
  · exact (claim_C10.1 env2 ColorMode.TwentyFourBit st0 Err.spi rfl).trans rfl
  · exact (claim_C10.2.1 env0 2 st0).trans rfl
  · exact (claim_C10.2.2.2.2.2.2 env0 50 st0).trans rfl



end Tftmc043
